import Mathlib

/-!
# Sunshine custom-integration client (`client.go`)

A shallow embedding of the five operations of the client.  The Go standard
library calls the client makes (`json.Marshal`, `http.NewRequest`,
`http.Client.Do`, `io.ReadAll`, `json.Unmarshal`, `Body.Close`) are not part
of the repository: their results are taken from an environment `Env`, and
every call is recorded in an explicit `World` so that the order of effects
and the number of open response bodies can be stated.
-/

namespace Sunshine

/-! ## Values of the Go runtime -/

/-- Go `error` value; the nil error is `none : Option Error`. -/
abbrev Error := String

/-- Go `[]byte`, kept as text. -/
abbrev Bytes := String

/-- Go slice: `none` is the nil slice, `some []` an empty non-nil slice. -/
abbrev Slice (α : Type) := Option (List α)

/-! ## Types of `client.go` -/

/-- Go struct `Webhook` (client.go:37-43). -/
structure Webhook where
  Id : String
  Version : String
  Target : String
  Triggers : Slice String
  Secret : String
deriving DecidableEq, Repr

/-- Go struct `CustomIntegration` (client.go:30-35). -/
structure CustomIntegration where
  Id : String
  Status : String
  DisplayName : String
  Webhooks : Slice Webhook
deriving DecidableEq, Repr

/-- Go struct `createWebhook` (client.go:51-56). -/
structure createWebhook where
  Target : String
  Triggers : Slice String
  IncludeFullUser : Bool
  IncludeFullSource : Bool
deriving DecidableEq, Repr

/-- Go struct `createCustomIntegrationRequest` (client.go:45-49); the field
`Type` is spelled `Type_`. -/
structure createCustomIntegrationRequest where
  Type_ : String
  DisplayName : String
  Webhooks : Slice createWebhook
deriving DecidableEq, Repr

/-- Go struct `customIntegrationWrapper` (client.go:58-60). -/
structure customIntegrationWrapper where
  Integration : CustomIntegration
deriving DecidableEq, Repr

/-- Go struct `updateCustomIntegration` (client.go:104-106). -/
structure updateCustomIntegration where
  DisplayName : String
deriving DecidableEq, Repr

/-- Go struct `customIntegrationsWrapper` (client.go:146-148). -/
structure customIntegrationsWrapper where
  Integrations : Slice CustomIntegration
deriving DecidableEq, Repr

/-! ## The parts of `net/http` and `io` the client touches -/

/-- An `*http.Request` as far as the client sets it: method, URL text, body
bytes and the arguments of `SetBasicAuth` (`none` until it is called). -/
structure Request where
  Method : String
  URL : String
  Body : Bytes
  BasicAuth : Option (String × String)
deriving DecidableEq, Repr

/-- A response body stream: the bytes it holds and the error, if any, that
reading it to the end runs into. -/
structure ReadCloser where
  data : Bytes
  readErr : Option Error
deriving DecidableEq, Repr

/-- An `*http.Response`: status code and body stream. -/
structure Response where
  StatusCode : Nat
  Body : ReadCloser
deriving DecidableEq, Repr

/-- The `Do` method of an `*http.Client`: a response, or a transport error. -/
abbrev Transport := Request → Except Error Response

/-- Go struct `Client` (client.go:11-17). -/
structure Client where
  baseUrl : String
  appId : String
  apiKeyId : String
  appSecret : String
  client : Transport

/-- Library behaviour the client depends on and does not define. -/
structure Env where
  /-- Result of `json.Marshal` on a `createCustomIntegrationRequest`. -/
  marshalCreate : createCustomIntegrationRequest → Except Error Bytes
  /-- Result of `json.Marshal` on an `updateCustomIntegration`. -/
  marshalUpdate : updateCustomIntegration → Except Error Bytes
  /-- The error `http.NewRequest` reports for a method and URL, if any. -/
  newRequestErr : String → String → Option Error
  /-- The transport `http.DefaultClient`. -/
  DefaultClient : Transport
  /-- Effect of `json.Unmarshal(body, &wrapper)` on a zero `customIntegrationWrapper`:
  the wrapper afterwards and the error returned. -/
  unmarshalWrapper : Bytes → customIntegrationWrapper × Option Error
  /-- Effect of `json.Unmarshal(body, &wrapper)` on a zero `customIntegrationsWrapper`:
  the wrapper afterwards and the error returned. -/
  unmarshalWrappers : Bytes → customIntegrationsWrapper × Option Error

/-- One library call made by an operation. -/
inductive Event where
  | marshalCreate (v : createCustomIntegrationRequest)
  | marshalUpdate (v : updateCustomIntegration)
  | send (r : Request)
  | readAll
  | unmarshal (body : Bytes)
  | close
deriving DecidableEq, Repr

/-- Observable state: how many response bodies the transport has handed out
that are not closed yet, and the library calls made so far, oldest first. -/
structure World where
  openBodies : Nat
  log : List Event
deriving DecidableEq, Repr

/-- Nothing open, nothing called. -/
def World.init : World := { openBodies := 0, log := [] }

/-- Append one call to the log. -/
def World.record (w : World) (e : Event) : World :=
  { w with log := w.log ++ [e] }

/-- Go `http.NewRequest(method, url, body)`: fails with the library's error, or
yields a request with that method, URL and body and no credentials. -/
def NewRequest (env : Env) (method url : String) (body : Bytes) : Except Error Request :=
  match env.newRequestErr method url with
  | some err => .error err
  | none => .ok { Method := method, URL := url, Body := body, BasicAuth := none }

/-- Go `request.SetBasicAuth(username, password)`: the credentials are set on the request. -/
def Request.SetBasicAuth (r : Request) (username password : String) : Request :=
  { r with BasicAuth := some (username, password) }

/-- Go `client.Do(request)`: the send is logged; a response comes with an open body. -/
def Do (t : Transport) (r : Request) (w : World) : Except Error Response × World :=
  match t r with
  | .error err => (.error err, w.record (.send r))
  | .ok resp => (.ok resp, { (w.record (.send r)) with openBodies := w.openBodies + 1 })

/-- Go `io.ReadAll(body)`: the whole body, or the error that reading it met. -/
def ReadAll (b : ReadCloser) (w : World) : Except Error Bytes × World :=
  match b.readErr with
  | some err => (.error err, w.record .readAll)
  | none => (.ok b.data, w.record .readAll)

/-- Go `response.Body.Close()`: one open body fewer. -/
def Close (w : World) : World :=
  { (w.record .close) with openBodies := w.openBodies - 1 }

/-! ## The operations of `client.go` -/

/-- Go `NewClient` (client.go:19-28). -/
def NewClient (env : Env) (baseUrl appId apiKeyId appSecret : String) : Client :=
  { baseUrl := baseUrl, appId := appId, apiKeyId := apiKeyId, appSecret := appSecret,
    client := env.DefaultClient }

/-- Go `CreateCustomIntegration` (client.go:62-102). -/
def CreateCustomIntegration (env : Env) (client : Client) (displayName target : String)
    (triggers : Slice String) (includeFullUser includeFullSource : Bool) (w : World) :
    (Option CustomIntegration × Option Error) × World :=
  let requestBody : createCustomIntegrationRequest :=
    { Type_ := "custom"
      DisplayName := displayName
      Webhooks := some [
        { Target := target
          Triggers := triggers
          IncludeFullUser := includeFullUser
          IncludeFullSource := includeFullSource }] }
  let w := w.record (.marshalCreate requestBody)
  match env.marshalCreate requestBody with
  | .error err => ((none, some err), w)
  | .ok requestBodyJson =>
    match NewRequest env "POST"
        (client.baseUrl ++ "v2/apps/" ++ client.appId ++ "/integrations") requestBodyJson with
    | .error err => ((none, some err), w)
    | .ok request =>
      let request := request.SetBasicAuth client.apiKeyId client.appSecret
      match Do client.client request w with
      | (.error err, w) => ((none, some err), w)
      | (.ok response, w) =>
        -- `defer response.Body.Close()`: runs after the result below is fixed
        match ReadAll response.Body w with
        | (.error err, w) => ((none, some err), Close w)
        | (.ok body, w) =>
          let w := w.record (.unmarshal body)
          let (wrapper, err) := env.unmarshalWrapper body
          ((some wrapper.Integration, err), Close w)

/-- Go `UpdateCustomIntegration` (client.go:108-129). -/
def UpdateCustomIntegration (env : Env) (client : Client) (integrationId displayName : String)
    (w : World) : Option Error × World :=
  let requestBody : updateCustomIntegration := { DisplayName := displayName }
  let w := w.record (.marshalUpdate requestBody)
  match env.marshalUpdate requestBody with
  | .error err => (some err, w)
  | .ok requestBodyJson =>
    match NewRequest env "PATCH"
        (client.baseUrl ++ "v2/apps/" ++ client.appId ++ "/integrations/" ++ integrationId)
        requestBodyJson with
    | .error err => (some err, w)
    | .ok request =>
      let request := request.SetBasicAuth client.apiKeyId client.appSecret
      match Do client.client request w with
      | (.error err, w) => (some err, w)
      | (.ok _, w) => (none, w)

/-- Go `DeleteCustomIntegration` (client.go:131-144). -/
def DeleteCustomIntegration (env : Env) (client : Client) (integrationId : String)
    (w : World) : Option Error × World :=
  match NewRequest env "DELETE"
      (client.baseUrl ++ "v2/apps/" ++ client.appId ++ "/integrations/" ++ integrationId) "" with
  | .error err => (some err, w)
  | .ok request =>
    let request := request.SetBasicAuth client.apiKeyId client.appSecret
    match Do client.client request w with
    | (.error err, w) => (some err, w)
    | (.ok _, w) => (none, w)

/-- Go `GetAllCustomIntegrations` (client.go:150-176). -/
def GetAllCustomIntegrations (env : Env) (client : Client) (w : World) :
    (Option (Slice CustomIntegration) × Option Error) × World :=
  let url := client.baseUrl ++ "v2/apps/" ++ client.appId ++ "/integrations?filter[types]=custom"
  match NewRequest env "GET" url "" with
  | .error err => ((none, some err), w)
  | .ok request =>
    let request := request.SetBasicAuth client.apiKeyId client.appSecret
    match Do client.client request w with
    | (.error err, w) => ((none, some err), w)
    | (.ok response, w) =>
      -- `defer response.Body.Close()`
      match ReadAll response.Body w with
      | (.error err, w) => ((none, some err), Close w)
      | (.ok body, w) =>
        let w := w.record (.unmarshal body)
        match env.unmarshalWrappers body with
        | (_, some err) => ((none, some err), Close w)
        | (wrapper, none) => ((some wrapper.Integrations, none), Close w)

/-- Go `GetCustomIntegration` (client.go:178-204). -/
def GetCustomIntegration (env : Env) (client : Client) (integrationId : String) (w : World) :
    (Option CustomIntegration × Option Error) × World :=
  let url := client.baseUrl ++ "v2/apps/" ++ client.appId ++ "/integrations/" ++ integrationId
  match NewRequest env "GET" url "" with
  | .error err => ((none, some err), w)
  | .ok request =>
    let request := request.SetBasicAuth client.apiKeyId client.appSecret
    match Do client.client request w with
    | (.error err, w) => ((none, some err), w)
    | (.ok response, w) =>
      -- `defer response.Body.Close()`
      match ReadAll response.Body w with
      | (.error err, w) => ((none, some err), Close w)
      | (.ok body, w) =>
        let w := w.record (.unmarshal body)
        match env.unmarshalWrapper body with
        | (_, some err) => ((none, some err), Close w)
        | (wrapper, none) => ((some wrapper.Integration, none), Close w)

/-! ## Reading the log -/

/-- The requests handed to the transport, oldest first. -/
def sent : List Event → List Request
  | [] => []
  | .send r :: es => r :: sent es
  | _ :: es => sent es

/-- The values handed to `json.Marshal` as a create request, oldest first. -/
def serialized : List Event → List createCustomIntegrationRequest
  | [] => []
  | .marshalCreate v :: es => v :: serialized es
  | _ :: es => serialized es

/-- Number of `io.ReadAll` calls in a log. -/
def bodyReads (l : List Event) : Nat := l.count .readAll

/-- The bodies handed to `json.Unmarshal`, oldest first. -/
def decoded : List Event → List Bytes
  | [] => []
  | .unmarshal b :: es => b :: decoded es
  | _ :: es => decoded es

/-! ## An example environment

A small standard library to run the operations on concrete inputs: a JSON
writer and reader for the client's wire types in the manner of
`encoding/json` (keys matched to the field tags without regard to ASCII case,
unknown keys skipped, absent keys leave the zero value, `null` leaves a string
as it is and makes a slice nil, a value of the wrong kind is reported after
the remaining fields are stored, a syntax error leaves the target untouched),
and an `http.NewRequest` that rejects control characters in the URL.  The
theorems below hold for every `Env`; this one only supplies examples. -/

/-- A parsed JSON text; number values are not kept, no field of the client is numeric. -/
inductive JSON where
  | null
  | bool (b : Bool)
  | num
  | str (s : String)
  | arr (items : List JSON)
  | obj (members : List (String × JSON))
deriving Repr

/-- Drop leading JSON white space. -/
def skipSpace : List Char → List Char
  | [] => []
  | c :: cs => if c = ' ' ∨ c = '\t' ∨ c = '\n' ∨ c = '\r' then skipSpace cs else c :: cs

/-- Value of one hexadecimal digit. -/
def hexDigit (c : Char) : Option Nat :=
  if '0' ≤ c ∧ c ≤ '9' then some (c.toNat - 48)
  else if 'a' ≤ c ∧ c ≤ 'f' then some (c.toNat - 87)
  else if 'A' ≤ c ∧ c ≤ 'F' then some (c.toNat - 55)
  else none

/-- Value of four hexadecimal digits. -/
def hex4 (a b c d : Char) : Option Nat :=
  match hexDigit a, hexDigit b, hexDigit c, hexDigit d with
  | some x, some y, some z, some w => some (((x * 16 + y) * 16 + z) * 16 + w)
  | _, _, _, _ => none

/-- The character written by a four-digit escape; half of a surrogate pair
becomes U+FFFD. -/
def escapedChar (n : Nat) : Char :=
  if 0xD800 ≤ n ∧ n < 0xE000 then Char.ofNat 0xFFFD else Char.ofNat n

/-- Read a string literal after its opening quote, up to the closing quote. -/
def scanString : List Char → List Char → Option (String × List Char)
  | [], _ => none
  | '\"' :: rest, acc => some (String.mk acc.reverse, rest)
  | '\\' :: '\"' :: rest, acc => scanString rest ('\"' :: acc)
  | '\\' :: '\\' :: rest, acc => scanString rest ('\\' :: acc)
  | '\\' :: '/' :: rest, acc => scanString rest ('/' :: acc)
  | '\\' :: 'b' :: rest, acc => scanString rest (Char.ofNat 8 :: acc)
  | '\\' :: 'f' :: rest, acc => scanString rest (Char.ofNat 12 :: acc)
  | '\\' :: 'n' :: rest, acc => scanString rest ('\n' :: acc)
  | '\\' :: 'r' :: rest, acc => scanString rest ('\r' :: acc)
  | '\\' :: 't' :: rest, acc => scanString rest ('\t' :: acc)
  | '\\' :: 'u' :: a :: b :: c :: d :: rest, acc =>
    match hex4 a b c d with
    | some n => scanString rest (escapedChar n :: acc)
    | none => none
  | '\\' :: _, _ => none
  | c :: rest, acc => if c.toNat < 32 then none else scanString rest (c :: acc)

/-- Drop leading decimal digits. -/
def digits : List Char → List Char
  | [] => []
  | c :: cs => if '0' ≤ c ∧ c ≤ '9' then digits cs else c :: cs

/-- Drop one or more leading decimal digits. -/
def digits1 : List Char → Option (List Char)
  | c :: cs => if '0' ≤ c ∧ c ≤ '9' then some (digits cs) else none
  | [] => none

/-- Exponent part of a number, if present. -/
def scanExp : List Char → Option (List Char)
  | 'e' :: '+' :: cs | 'e' :: '-' :: cs | 'E' :: '+' :: cs | 'E' :: '-' :: cs => digits1 cs
  | 'e' :: cs | 'E' :: cs => digits1 cs
  | cs => some cs

/-- Fraction and exponent parts of a number, if present. -/
def scanFrac : List Char → Option (List Char)
  | '.' :: cs => (digits1 cs).bind scanExp
  | cs => scanExp cs

/-- Integer part of a number and what follows it. -/
def scanInt : List Char → Option (List Char)
  | '0' :: cs => scanFrac cs
  | cs => (digits1 cs).bind scanFrac

/-- Read a JSON number. -/
def scanNumber : List Char → Option (List Char)
  | '-' :: cs => scanInt cs
  | cs => scanInt cs

mutual
/-- Read one JSON value; the first argument bounds the number of nested calls. -/
def parseValue : Nat → List Char → Option (JSON × List Char)
  | 0, _ => none
  | fuel + 1, cs =>
    match skipSpace cs with
    | 'n' :: 'u' :: 'l' :: 'l' :: rest => some (.null, rest)
    | 't' :: 'r' :: 'u' :: 'e' :: rest => some (.bool true, rest)
    | 'f' :: 'a' :: 'l' :: 's' :: 'e' :: rest => some (.bool false, rest)
    | '\"' :: rest => (scanString rest []).map fun (s, rest) => (.str s, rest)
    | '[' :: rest =>
      match skipSpace rest with
      | ']' :: rest => some (.arr [], rest)
      | rest => (parseItems fuel rest).map fun (xs, rest) => (.arr xs, rest)
    | '\x7b' :: rest =>
      match skipSpace rest with
      | '\x7d' :: rest => some (.obj [], rest)
      | rest => (parseMembers fuel rest).map fun (xs, rest) => (.obj xs, rest)
    | rest => (scanNumber rest).map fun rest => (.num, rest)
/-- Read the values of a non-empty array up to its closing bracket. -/
def parseItems : Nat → List Char → Option (List JSON × List Char)
  | 0, _ => none
  | fuel + 1, cs =>
    match parseValue fuel cs with
    | none => none
    | some (v, rest) =>
      match skipSpace rest with
      | ',' :: rest => (parseItems fuel rest).map fun (vs, rest) => (v :: vs, rest)
      | ']' :: rest => some ([v], rest)
      | _ => none
/-- Read the members of a non-empty object up to its closing brace. -/
def parseMembers : Nat → List Char → Option (List (String × JSON) × List Char)
  | 0, _ => none
  | fuel + 1, cs =>
    match skipSpace cs with
    | '\"' :: rest =>
      match scanString rest [] with
      | none => none
      | some (k, rest) =>
        match skipSpace rest with
        | ':' :: rest =>
          match parseValue fuel rest with
          | none => none
          | some (v, rest) =>
            match skipSpace rest with
            | ',' :: rest => (parseMembers fuel rest).map fun (ms, rest) => ((k, v) :: ms, rest)
            | '\x7d' :: rest => some ([(k, v)], rest)
            | _ => none
        | _ => none
    | _ => none
end

/-- Read a whole JSON text: one value, then white space only. -/
def parseJSON (text : Bytes) : Option JSON :=
  match parseValue (text.length + 1) text.toList with
  | some (v, rest) => if skipSpace rest = [] then some v else none
  | none => none

/-- ASCII lower case of a character. -/
def foldCase (c : Char) : Char :=
  if 'A' ≤ c ∧ c ≤ 'Z' then Char.ofNat (c.toNat + 32) else c

/-- Whether an object key names the field with the given tag. -/
def keyIs (key tag : String) : Bool :=
  key.toList.map foldCase = tag.toList.map foldCase

/-- The first of two errors. -/
def firstErr : Option Error → Option Error → Option Error
  | some e, _ => some e
  | none, e => e

/-- Name of the kind of a JSON value, for error texts. -/
def JSON.kind : JSON → String
  | .null => "null"
  | .bool _ => "bool"
  | .num => "number"
  | .str _ => "string"
  | .arr _ => "array"
  | .obj _ => "object"

/-- Error for a JSON value that does not fit the Go type. -/
def typeErr (v : JSON) (goType : String) : Error :=
  "json: cannot unmarshal " ++ v.kind ++ " into Go value of type " ++ goType

/-- Store a JSON value into a Go string. -/
def storeString (cur : String) : JSON → String × Option Error
  | .str s => (s, none)
  | .null => (cur, none)
  | v => (cur, some (typeErr v "string"))

/-- Store the items of a JSON array, each by `store`, keeping the first error. -/
def storeItems {α : Type} (store : JSON → α × Option Error) : List JSON → List α × Option Error
  | [] => ([], none)
  | v :: vs =>
    let (x, e) := store v
    let (xs, es) := storeItems store vs
    (x :: xs, firstErr e es)

/-- Store a JSON value into a Go slice. -/
def storeSlice {α : Type} (goType : String) (store : JSON → α × Option Error) (cur : Slice α) :
    JSON → Slice α × Option Error
  | .arr items =>
    let (xs, e) := storeItems store items
    (some xs, e)
  | .null => (none, none)
  | v => (cur, some (typeErr v goType))

/-- Zero value of `Webhook`. -/
def zeroWebhook : Webhook :=
  { Id := "", Version := "", Target := "", Triggers := none, Secret := "" }

/-- Zero value of `CustomIntegration`. -/
def zeroIntegration : CustomIntegration :=
  { Id := "", Status := "", DisplayName := "", Webhooks := none }

/-- Store one object member into a `Webhook`. -/
def storeWebhookField (cur : Webhook × Option Error) (m : String × JSON) :
    Webhook × Option Error :=
  if keyIs m.1 "id" then
    ({ cur.1 with Id := (storeString cur.1.Id m.2).1 },
      firstErr cur.2 (storeString cur.1.Id m.2).2)
  else if keyIs m.1 "version" then
    ({ cur.1 with Version := (storeString cur.1.Version m.2).1 },
      firstErr cur.2 (storeString cur.1.Version m.2).2)
  else if keyIs m.1 "target" then
    ({ cur.1 with Target := (storeString cur.1.Target m.2).1 },
      firstErr cur.2 (storeString cur.1.Target m.2).2)
  else if keyIs m.1 "triggers" then
    ({ cur.1 with
        Triggers := (storeSlice "[]string" (storeString "") cur.1.Triggers m.2).1 },
      firstErr cur.2 (storeSlice "[]string" (storeString "") cur.1.Triggers m.2).2)
  else if keyIs m.1 "secret" then
    ({ cur.1 with Secret := (storeString cur.1.Secret m.2).1 },
      firstErr cur.2 (storeString cur.1.Secret m.2).2)
  else cur

/-- Store a JSON value into a `Webhook`. -/
def storeWebhook (cur : Webhook) : JSON → Webhook × Option Error
  | .obj members => members.foldl storeWebhookField (cur, none)
  | .null => (cur, none)
  | v => (cur, some (typeErr v "sunshine.Webhook"))

/-- Store one object member into a `CustomIntegration`. -/
def storeIntegrationField (cur : CustomIntegration × Option Error) (m : String × JSON) :
    CustomIntegration × Option Error :=
  if keyIs m.1 "id" then
    ({ cur.1 with Id := (storeString cur.1.Id m.2).1 },
      firstErr cur.2 (storeString cur.1.Id m.2).2)
  else if keyIs m.1 "status" then
    ({ cur.1 with Status := (storeString cur.1.Status m.2).1 },
      firstErr cur.2 (storeString cur.1.Status m.2).2)
  else if keyIs m.1 "displayName" then
    ({ cur.1 with DisplayName := (storeString cur.1.DisplayName m.2).1 },
      firstErr cur.2 (storeString cur.1.DisplayName m.2).2)
  else if keyIs m.1 "webhooks" then
    ({ cur.1 with
        Webhooks :=
          (storeSlice "[]sunshine.Webhook" (storeWebhook zeroWebhook) cur.1.Webhooks m.2).1 },
      firstErr cur.2
        (storeSlice "[]sunshine.Webhook" (storeWebhook zeroWebhook) cur.1.Webhooks m.2).2)
  else cur

/-- Store a JSON value into a `CustomIntegration`. -/
def storeIntegration (cur : CustomIntegration) : JSON → CustomIntegration × Option Error
  | .obj members => members.foldl storeIntegrationField (cur, none)
  | .null => (cur, none)
  | v => (cur, some (typeErr v "sunshine.CustomIntegration"))

/-- Store one object member into a `customIntegrationWrapper`. -/
def storeWrapperField (cur : customIntegrationWrapper × Option Error) (m : String × JSON) :
    customIntegrationWrapper × Option Error :=
  if keyIs m.1 "integration" then
    ({ Integration := (storeIntegration cur.1.Integration m.2).1 },
      firstErr cur.2 (storeIntegration cur.1.Integration m.2).2)
  else cur

/-- Store one object member into a `customIntegrationsWrapper`. -/
def storeWrappersField (cur : customIntegrationsWrapper × Option Error) (m : String × JSON) :
    customIntegrationsWrapper × Option Error :=
  if keyIs m.1 "integrations" then
    ({ Integrations :=
        (storeSlice "[]sunshine.CustomIntegration" (storeIntegration zeroIntegration)
          cur.1.Integrations m.2).1 },
      firstErr cur.2
        (storeSlice "[]sunshine.CustomIntegration" (storeIntegration zeroIntegration)
          cur.1.Integrations m.2).2)
  else cur

/-- Example `json.Unmarshal` into a zero `customIntegrationWrapper`. -/
def jsonUnmarshalWrapper (body : Bytes) : customIntegrationWrapper × Option Error :=
  match parseJSON body with
  | none => ({ Integration := zeroIntegration }, some "json: syntax error")
  | some (.obj members) => members.foldl storeWrapperField ({ Integration := zeroIntegration }, none)
  | some .null => ({ Integration := zeroIntegration }, none)
  | some v =>
    ({ Integration := zeroIntegration }, some (typeErr v "sunshine.customIntegrationWrapper"))

/-- Example `json.Unmarshal` into a zero `customIntegrationsWrapper`. -/
def jsonUnmarshalWrappers (body : Bytes) : customIntegrationsWrapper × Option Error :=
  match parseJSON body with
  | none => ({ Integrations := none }, some "json: syntax error")
  | some (.obj members) => members.foldl storeWrappersField ({ Integrations := none }, none)
  | some .null => ({ Integrations := none }, none)
  | some v => ({ Integrations := none }, some (typeErr v "sunshine.customIntegrationsWrapper"))

/-- Lower-case hexadecimal digit. -/
def hexChar (n : Nat) : Char :=
  if n < 10 then Char.ofNat (48 + n) else Char.ofNat (87 + n)

/-- One character of a string as `json.Marshal` writes it. -/
def quoteChar (c : Char) : List Char :=
  if c = '\"' then ['\\', '\"']
  else if c = '\\' then ['\\', '\\']
  else if c = '\n' then ['\\', 'n']
  else if c = '\r' then ['\\', 'r']
  else if c = '\t' then ['\\', 't']
  else if c.toNat < 32 ∨ c = '<' ∨ c = '>' ∨ c = '&' ∨ c.toNat = 0x2028 ∨ c.toNat = 0x2029 then
    ['\\', 'u', hexChar (c.toNat / 4096 % 16), hexChar (c.toNat / 256 % 16),
      hexChar (c.toNat / 16 % 16), hexChar (c.toNat % 16)]
  else [c]

/-- The characters of a string, each as `json.Marshal` writes it. -/
def quoteChars : List Char → List Char
  | [] => []
  | c :: cs => quoteChar c ++ quoteChars cs

/-- A Go string as a JSON string literal. -/
def quoteString (s : String) : String :=
  "\"" ++ String.mk (quoteChars s.toList) ++ "\""

/-- Texts joined by commas. -/
def commaSep : List String → String
  | [] => ""
  | [x] => x
  | x :: xs => x ++ "," ++ commaSep xs

/-- A Go slice as JSON: `null` for the nil slice, else an array. -/
def writeSlice {α : Type} (write : α → String) : Slice α → String
  | none => "null"
  | some xs => "[" ++ commaSep (xs.map write) ++ "]"

/-- A Go bool as JSON. -/
def writeBool (b : Bool) : String := if b then "true" else "false"

/-- Example `json.Marshal` of a `createWebhook`. -/
def writeCreateWebhook (h : createWebhook) : String :=
  "\x7b\"target\":" ++ quoteString h.Target ++
  ",\"triggers\":" ++ writeSlice quoteString h.Triggers ++
  ",\"includeFullUser\":" ++ writeBool h.IncludeFullUser ++
  ",\"includeFullSource\":" ++ writeBool h.IncludeFullSource ++ "\x7d"

/-- Example `json.Marshal` of a `createCustomIntegrationRequest`. -/
def jsonMarshalCreate (v : createCustomIntegrationRequest) : Except Error Bytes :=
  .ok ("\x7b\"type\":" ++ quoteString v.Type_ ++
    ",\"displayName\":" ++ quoteString v.DisplayName ++
    ",\"webhooks\":" ++ writeSlice writeCreateWebhook v.Webhooks ++ "\x7d")

/-- Example `json.Marshal` of an `updateCustomIntegration`. -/
def jsonMarshalUpdate (v : updateCustomIntegration) : Except Error Bytes :=
  .ok ("\x7b\"displayName\":" ++ quoteString v.DisplayName ++ "\x7d")

/-- Example `http.NewRequest` check: control characters in the URL are refused. -/
def urlErr (_method url : String) : Option Error :=
  if url.toList.any (fun c => c.toNat < 32 ∨ c.toNat = 127) then
    some "net/url: invalid control character in URL"
  else none

/-- The example environment around a given transport. -/
def exampleEnv (server : Transport) : Env :=
  { marshalCreate := jsonMarshalCreate
    marshalUpdate := jsonMarshalUpdate
    newRequestErr := urlErr
    DefaultClient := server
    unmarshalWrapper := jsonUnmarshalWrapper
    unmarshalWrappers := jsonUnmarshalWrappers }

/-- A transport that answers every request with the given status and body text. -/
def respond (status : Nat) (body : Bytes) : Transport :=
  fun _ => .ok { StatusCode := status, Body := { data := body, readErr := none } }

/-- A transport that fails every request with the given error. -/
def refuse (err : Error) : Transport :=
  fun _ => .error err

/-- A transport whose response body breaks off while it is read. -/
def truncate (status : Nat) (err : Error) : Transport :=
  fun _ => .ok { StatusCode := status, Body := { data := "", readErr := some err } }

/-- Response body of the create scenario. -/
def createdBody : Bytes :=
  "\x7b\"integration\":\x7b\"id\":\"abc\",\"status\":\"active\",\"displayName\":\"My Bot\",\"webhooks\":[\x7b\"id\":\"w1\",\"version\":\"1\",\"target\":\"https://hook.example.com\",\"triggers\":[\"message:received\"],\"secret\":\"s3cr3t\"\x7d]\x7d\x7d"

/-- A client for the base URL "https://api.example.com/" and application "A1"
whose server answers every request with the given status and body. -/
def exampleClient (status : Nat) (body : Bytes) : Client :=
  NewClient (exampleEnv (respond status body)) "https://api.example.com/" "A1" "key-id" "secret"

/-- A client for the base URL "https://api.example.com/" and application "A1"
over the given transport. -/
def clientOver (server : Transport) : Client :=
  NewClient (exampleEnv server) "https://api.example.com/" "A1" "key-id" "secret"

/-- A response body whose "status" is a number, not a string. -/
def mistypedBody : Bytes :=
  "\x7b\"integration\":\x7b\"id\":\"abc\",\"status\":5\x7d\x7d"

/-- A response body listing three integrations, out of order and with a repeat. -/
def listedBody : Bytes :=
  "\x7b\"integrations\":[\x7b\"id\":\"b\"\x7d,\x7b\"id\":\"a\"\x7d,\x7b\"id\":\"b\"\x7d]\x7d"

/-! ## The paths through each operation -/

/-- Every run of `CreateCustomIntegration` ends in one of four ways: before the
send (serialization or request construction failed), at a failed send, at a
failed body read, or after the decode. -/
theorem CreateCustomIntegration_paths (env : Env) (client : Client)
    (displayName target : String) (triggers : Slice String)
    (includeFullUser includeFullSource : Bool) (w : World) :
    (∃ e, CreateCustomIntegration env client displayName target triggers
        includeFullUser includeFullSource w =
          ((none, some e),
            { openBodies := w.openBodies
              log := w.log ++ [.marshalCreate ⟨"custom", displayName,
                some [⟨target, triggers, includeFullUser, includeFullSource⟩]⟩] })) ∨
    (∃ b e,
      env.marshalCreate ⟨"custom", displayName,
        some [⟨target, triggers, includeFullUser, includeFullSource⟩]⟩ = .ok b ∧
      client.client ⟨"POST", client.baseUrl ++ "v2/apps/" ++ client.appId ++ "/integrations", b,
        some (client.apiKeyId, client.appSecret)⟩ = .error e ∧
      CreateCustomIntegration env client displayName target triggers
        includeFullUser includeFullSource w =
          ((none, some e),
            { openBodies := w.openBodies
              log := w.log ++ [.marshalCreate ⟨"custom", displayName,
                  some [⟨target, triggers, includeFullUser, includeFullSource⟩]⟩,
                .send ⟨"POST", client.baseUrl ++ "v2/apps/" ++ client.appId ++ "/integrations", b,
                  some (client.apiKeyId, client.appSecret)⟩] })) ∨
    (∃ b resp e,
      env.marshalCreate ⟨"custom", displayName,
        some [⟨target, triggers, includeFullUser, includeFullSource⟩]⟩ = .ok b ∧
      client.client ⟨"POST", client.baseUrl ++ "v2/apps/" ++ client.appId ++ "/integrations", b,
        some (client.apiKeyId, client.appSecret)⟩ = .ok resp ∧
      resp.Body.readErr = some e ∧
      CreateCustomIntegration env client displayName target triggers
        includeFullUser includeFullSource w =
          ((none, some e),
            { openBodies := w.openBodies
              log := w.log ++ [.marshalCreate ⟨"custom", displayName,
                  some [⟨target, triggers, includeFullUser, includeFullSource⟩]⟩,
                .send ⟨"POST", client.baseUrl ++ "v2/apps/" ++ client.appId ++ "/integrations", b,
                  some (client.apiKeyId, client.appSecret)⟩,
                .readAll, .close] })) ∨
    (∃ b resp,
      env.marshalCreate ⟨"custom", displayName,
        some [⟨target, triggers, includeFullUser, includeFullSource⟩]⟩ = .ok b ∧
      client.client ⟨"POST", client.baseUrl ++ "v2/apps/" ++ client.appId ++ "/integrations", b,
        some (client.apiKeyId, client.appSecret)⟩ = .ok resp ∧
      resp.Body.readErr = none ∧
      CreateCustomIntegration env client displayName target triggers
        includeFullUser includeFullSource w =
          ((some (env.unmarshalWrapper resp.Body.data).1.Integration,
              (env.unmarshalWrapper resp.Body.data).2),
            { openBodies := w.openBodies
              log := w.log ++ [.marshalCreate ⟨"custom", displayName,
                  some [⟨target, triggers, includeFullUser, includeFullSource⟩]⟩,
                .send ⟨"POST", client.baseUrl ++ "v2/apps/" ++ client.appId ++ "/integrations", b,
                  some (client.apiKeyId, client.appSecret)⟩,
                .readAll, .unmarshal resp.Body.data, .close] })) := by
  rcases hm : env.marshalCreate ⟨"custom", displayName,
      some [⟨target, triggers, includeFullUser, includeFullSource⟩]⟩ with e | b
  · exact .inl ⟨e, by simp [CreateCustomIntegration, World.record, hm]⟩
  rcases hn : env.newRequestErr "POST"
      (client.baseUrl ++ "v2/apps/" ++ client.appId ++ "/integrations") with _ | e
  swap
  · exact .inl ⟨e, by simp [CreateCustomIntegration, NewRequest, World.record, hm, hn]⟩
  rcases ht : client.client ⟨"POST",
      client.baseUrl ++ "v2/apps/" ++ client.appId ++ "/integrations", b,
      some (client.apiKeyId, client.appSecret)⟩ with e | resp
  · exact .inr (.inl ⟨b, e, rfl, ht, by
      simp [CreateCustomIntegration, NewRequest, Do, Request.SetBasicAuth, World.record,
        hm, hn, ht]⟩)
  rcases hr : resp.Body.readErr with _ | e
  · exact .inr (.inr (.inr ⟨b, resp, rfl, ht, hr, by
      simp [CreateCustomIntegration, NewRequest, Do, ReadAll, Close, Request.SetBasicAuth,
        World.record, hm, hn, ht, hr]⟩))
  · exact .inr (.inr (.inl ⟨b, resp, e, rfl, ht, hr, by
      simp [CreateCustomIntegration, NewRequest, Do, ReadAll, Close, Request.SetBasicAuth,
        World.record, hm, hn, ht, hr]⟩))

/-- Every run of `UpdateCustomIntegration` ends before the send, at a failed
send, or right after a send that brought a response. -/
theorem UpdateCustomIntegration_paths (env : Env) (client : Client)
    (integrationId displayName : String) (w : World) :
    (∃ e, UpdateCustomIntegration env client integrationId displayName w =
        (some e,
          { openBodies := w.openBodies
            log := w.log ++ [.marshalUpdate ⟨displayName⟩] })) ∨
    (∃ b e,
      env.marshalUpdate ⟨displayName⟩ = .ok b ∧
      client.client ⟨"PATCH",
        client.baseUrl ++ "v2/apps/" ++ client.appId ++ "/integrations/" ++ integrationId, b,
        some (client.apiKeyId, client.appSecret)⟩ = .error e ∧
      UpdateCustomIntegration env client integrationId displayName w =
        (some e,
          { openBodies := w.openBodies
            log := w.log ++ [.marshalUpdate ⟨displayName⟩,
              .send ⟨"PATCH",
                client.baseUrl ++ "v2/apps/" ++ client.appId ++ "/integrations/" ++ integrationId,
                b, some (client.apiKeyId, client.appSecret)⟩] })) ∨
    (∃ b resp,
      env.marshalUpdate ⟨displayName⟩ = .ok b ∧
      client.client ⟨"PATCH",
        client.baseUrl ++ "v2/apps/" ++ client.appId ++ "/integrations/" ++ integrationId, b,
        some (client.apiKeyId, client.appSecret)⟩ = .ok resp ∧
      UpdateCustomIntegration env client integrationId displayName w =
        (none,
          { openBodies := w.openBodies + 1
            log := w.log ++ [.marshalUpdate ⟨displayName⟩,
              .send ⟨"PATCH",
                client.baseUrl ++ "v2/apps/" ++ client.appId ++ "/integrations/" ++ integrationId,
                b, some (client.apiKeyId, client.appSecret)⟩] })) := by
  rcases hm : env.marshalUpdate ⟨displayName⟩ with e | b
  · exact .inl ⟨e, by simp [UpdateCustomIntegration, World.record, hm]⟩
  rcases hn : env.newRequestErr "PATCH"
      (client.baseUrl ++ "v2/apps/" ++ client.appId ++ "/integrations/" ++ integrationId)
    with _ | e
  swap
  · exact .inl ⟨e, by simp [UpdateCustomIntegration, NewRequest, World.record, hm, hn]⟩
  rcases ht : client.client ⟨"PATCH",
      client.baseUrl ++ "v2/apps/" ++ client.appId ++ "/integrations/" ++ integrationId, b,
      some (client.apiKeyId, client.appSecret)⟩ with e | resp
  · exact .inr (.inl ⟨b, e, rfl, ht, by
      simp [UpdateCustomIntegration, NewRequest, Do, Request.SetBasicAuth, World.record,
        hm, hn, ht]⟩)
  · exact .inr (.inr ⟨b, resp, rfl, ht, by
      simp [UpdateCustomIntegration, NewRequest, Do, Request.SetBasicAuth, World.record,
        hm, hn, ht]⟩)

/-- Every run of `DeleteCustomIntegration` ends before the send, at a failed
send, or right after a send that brought a response. -/
theorem DeleteCustomIntegration_paths (env : Env) (client : Client)
    (integrationId : String) (w : World) :
    (∃ e, DeleteCustomIntegration env client integrationId w = (some e, w)) ∨
    (∃ e,
      client.client ⟨"DELETE",
        client.baseUrl ++ "v2/apps/" ++ client.appId ++ "/integrations/" ++ integrationId, "",
        some (client.apiKeyId, client.appSecret)⟩ = .error e ∧
      DeleteCustomIntegration env client integrationId w =
        (some e,
          { openBodies := w.openBodies
            log := w.log ++ [.send ⟨"DELETE",
              client.baseUrl ++ "v2/apps/" ++ client.appId ++ "/integrations/" ++ integrationId,
              "", some (client.apiKeyId, client.appSecret)⟩] })) ∨
    (∃ resp,
      client.client ⟨"DELETE",
        client.baseUrl ++ "v2/apps/" ++ client.appId ++ "/integrations/" ++ integrationId, "",
        some (client.apiKeyId, client.appSecret)⟩ = .ok resp ∧
      DeleteCustomIntegration env client integrationId w =
        (none,
          { openBodies := w.openBodies + 1
            log := w.log ++ [.send ⟨"DELETE",
              client.baseUrl ++ "v2/apps/" ++ client.appId ++ "/integrations/" ++ integrationId,
              "", some (client.apiKeyId, client.appSecret)⟩] })) := by
  rcases hn : env.newRequestErr "DELETE"
      (client.baseUrl ++ "v2/apps/" ++ client.appId ++ "/integrations/" ++ integrationId)
    with _ | e
  swap
  · exact .inl ⟨e, by simp [DeleteCustomIntegration, NewRequest, hn]⟩
  rcases ht : client.client ⟨"DELETE",
      client.baseUrl ++ "v2/apps/" ++ client.appId ++ "/integrations/" ++ integrationId, "",
      some (client.apiKeyId, client.appSecret)⟩ with e | resp
  · exact .inr (.inl ⟨e, rfl, by
      simp [DeleteCustomIntegration, NewRequest, Do, Request.SetBasicAuth, World.record,
        hn, ht]⟩)
  · exact .inr (.inr ⟨resp, rfl, by
      simp [DeleteCustomIntegration, NewRequest, Do, Request.SetBasicAuth, World.record,
        hn, ht]⟩)

/-- Every run of `GetAllCustomIntegrations` ends before the send, at a failed
send, at a failed body read, at a failed decode, or with the decoded slice. -/
theorem GetAllCustomIntegrations_paths (env : Env) (client : Client) (w : World) :
    (∃ e, GetAllCustomIntegrations env client w = ((none, some e), w)) ∨
    (∃ e,
      client.client ⟨"GET",
        client.baseUrl ++ "v2/apps/" ++ client.appId ++ "/integrations?filter[types]=custom", "",
        some (client.apiKeyId, client.appSecret)⟩ = .error e ∧
      GetAllCustomIntegrations env client w =
        ((none, some e),
          { openBodies := w.openBodies
            log := w.log ++ [.send ⟨"GET",
              client.baseUrl ++ "v2/apps/" ++ client.appId ++ "/integrations?filter[types]=custom",
              "", some (client.apiKeyId, client.appSecret)⟩] })) ∨
    (∃ resp e,
      client.client ⟨"GET",
        client.baseUrl ++ "v2/apps/" ++ client.appId ++ "/integrations?filter[types]=custom", "",
        some (client.apiKeyId, client.appSecret)⟩ = .ok resp ∧
      resp.Body.readErr = some e ∧
      GetAllCustomIntegrations env client w =
        ((none, some e),
          { openBodies := w.openBodies
            log := w.log ++ [.send ⟨"GET",
              client.baseUrl ++ "v2/apps/" ++ client.appId ++ "/integrations?filter[types]=custom",
              "", some (client.apiKeyId, client.appSecret)⟩, .readAll, .close] })) ∨
    (∃ resp wr e,
      client.client ⟨"GET",
        client.baseUrl ++ "v2/apps/" ++ client.appId ++ "/integrations?filter[types]=custom", "",
        some (client.apiKeyId, client.appSecret)⟩ = .ok resp ∧
      resp.Body.readErr = none ∧
      env.unmarshalWrappers resp.Body.data = (wr, some e) ∧
      GetAllCustomIntegrations env client w =
        ((none, some e),
          { openBodies := w.openBodies
            log := w.log ++ [.send ⟨"GET",
              client.baseUrl ++ "v2/apps/" ++ client.appId ++ "/integrations?filter[types]=custom",
              "", some (client.apiKeyId, client.appSecret)⟩,
              .readAll, .unmarshal resp.Body.data, .close] })) ∨
    (∃ resp wr,
      client.client ⟨"GET",
        client.baseUrl ++ "v2/apps/" ++ client.appId ++ "/integrations?filter[types]=custom", "",
        some (client.apiKeyId, client.appSecret)⟩ = .ok resp ∧
      resp.Body.readErr = none ∧
      env.unmarshalWrappers resp.Body.data = (wr, none) ∧
      GetAllCustomIntegrations env client w =
        ((some wr.Integrations, none),
          { openBodies := w.openBodies
            log := w.log ++ [.send ⟨"GET",
              client.baseUrl ++ "v2/apps/" ++ client.appId ++ "/integrations?filter[types]=custom",
              "", some (client.apiKeyId, client.appSecret)⟩,
              .readAll, .unmarshal resp.Body.data, .close] })) := by
  rcases hn : env.newRequestErr "GET"
      (client.baseUrl ++ "v2/apps/" ++ client.appId ++ "/integrations?filter[types]=custom")
    with _ | e
  swap
  · exact .inl ⟨e, by simp [GetAllCustomIntegrations, NewRequest, hn]⟩
  rcases ht : client.client ⟨"GET",
      client.baseUrl ++ "v2/apps/" ++ client.appId ++ "/integrations?filter[types]=custom", "",
      some (client.apiKeyId, client.appSecret)⟩ with e | resp
  · exact .inr (.inl ⟨e, rfl, by
      simp [GetAllCustomIntegrations, NewRequest, Do, Request.SetBasicAuth, World.record,
        hn, ht]⟩)
  rcases hr : resp.Body.readErr with _ | e
  swap
  · exact .inr (.inr (.inl ⟨resp, e, rfl, hr, by
      simp [GetAllCustomIntegrations, NewRequest, Do, ReadAll, Close, Request.SetBasicAuth,
        World.record, hn, ht, hr]⟩))
  rcases hu : env.unmarshalWrappers resp.Body.data with ⟨wr, _ | e⟩
  · exact .inr (.inr (.inr (.inr ⟨resp, wr, rfl, hr, hu, by
      simp [GetAllCustomIntegrations, NewRequest, Do, ReadAll, Close, Request.SetBasicAuth,
        World.record, hn, ht, hr, hu]⟩)))
  · exact .inr (.inr (.inr (.inl ⟨resp, wr, e, rfl, hr, hu, by
      simp [GetAllCustomIntegrations, NewRequest, Do, ReadAll, Close, Request.SetBasicAuth,
        World.record, hn, ht, hr, hu]⟩)))

/-- Every run of `GetCustomIntegration` ends before the send, at a failed
send, at a failed body read, at a failed decode, or with the decoded value. -/
theorem GetCustomIntegration_paths (env : Env) (client : Client) (integrationId : String)
    (w : World) :
    (∃ e, GetCustomIntegration env client integrationId w = ((none, some e), w)) ∨
    (∃ e,
      client.client ⟨"GET",
        client.baseUrl ++ "v2/apps/" ++ client.appId ++ "/integrations/" ++ integrationId, "",
        some (client.apiKeyId, client.appSecret)⟩ = .error e ∧
      GetCustomIntegration env client integrationId w =
        ((none, some e),
          { openBodies := w.openBodies
            log := w.log ++ [.send ⟨"GET",
              client.baseUrl ++ "v2/apps/" ++ client.appId ++ "/integrations/" ++ integrationId,
              "", some (client.apiKeyId, client.appSecret)⟩] })) ∨
    (∃ resp e,
      client.client ⟨"GET",
        client.baseUrl ++ "v2/apps/" ++ client.appId ++ "/integrations/" ++ integrationId, "",
        some (client.apiKeyId, client.appSecret)⟩ = .ok resp ∧
      resp.Body.readErr = some e ∧
      GetCustomIntegration env client integrationId w =
        ((none, some e),
          { openBodies := w.openBodies
            log := w.log ++ [.send ⟨"GET",
              client.baseUrl ++ "v2/apps/" ++ client.appId ++ "/integrations/" ++ integrationId,
              "", some (client.apiKeyId, client.appSecret)⟩, .readAll, .close] })) ∨
    (∃ resp wr e,
      client.client ⟨"GET",
        client.baseUrl ++ "v2/apps/" ++ client.appId ++ "/integrations/" ++ integrationId, "",
        some (client.apiKeyId, client.appSecret)⟩ = .ok resp ∧
      resp.Body.readErr = none ∧
      env.unmarshalWrapper resp.Body.data = (wr, some e) ∧
      GetCustomIntegration env client integrationId w =
        ((none, some e),
          { openBodies := w.openBodies
            log := w.log ++ [.send ⟨"GET",
              client.baseUrl ++ "v2/apps/" ++ client.appId ++ "/integrations/" ++ integrationId,
              "", some (client.apiKeyId, client.appSecret)⟩,
              .readAll, .unmarshal resp.Body.data, .close] })) ∨
    (∃ resp wr,
      client.client ⟨"GET",
        client.baseUrl ++ "v2/apps/" ++ client.appId ++ "/integrations/" ++ integrationId, "",
        some (client.apiKeyId, client.appSecret)⟩ = .ok resp ∧
      resp.Body.readErr = none ∧
      env.unmarshalWrapper resp.Body.data = (wr, none) ∧
      GetCustomIntegration env client integrationId w =
        ((some wr.Integration, none),
          { openBodies := w.openBodies
            log := w.log ++ [.send ⟨"GET",
              client.baseUrl ++ "v2/apps/" ++ client.appId ++ "/integrations/" ++ integrationId,
              "", some (client.apiKeyId, client.appSecret)⟩,
              .readAll, .unmarshal resp.Body.data, .close] })) := by
  rcases hn : env.newRequestErr "GET"
      (client.baseUrl ++ "v2/apps/" ++ client.appId ++ "/integrations/" ++ integrationId)
    with _ | e
  swap
  · exact .inl ⟨e, by simp [GetCustomIntegration, NewRequest, hn]⟩
  rcases ht : client.client ⟨"GET",
      client.baseUrl ++ "v2/apps/" ++ client.appId ++ "/integrations/" ++ integrationId, "",
      some (client.apiKeyId, client.appSecret)⟩ with e | resp
  · exact .inr (.inl ⟨e, rfl, by
      simp [GetCustomIntegration, NewRequest, Do, Request.SetBasicAuth, World.record,
        hn, ht]⟩)
  rcases hr : resp.Body.readErr with _ | e
  swap
  · exact .inr (.inr (.inl ⟨resp, e, rfl, hr, by
      simp [GetCustomIntegration, NewRequest, Do, ReadAll, Close, Request.SetBasicAuth,
        World.record, hn, ht, hr]⟩))
  rcases hu : env.unmarshalWrapper resp.Body.data with ⟨wr, _ | e⟩
  · exact .inr (.inr (.inr (.inr ⟨resp, wr, rfl, hr, hu, by
      simp [GetCustomIntegration, NewRequest, Do, ReadAll, Close, Request.SetBasicAuth,
        World.record, hn, ht, hr, hu]⟩)))
  · exact .inr (.inr (.inr (.inl ⟨resp, wr, e, rfl, hr, hu, by
      simp [GetCustomIntegration, NewRequest, Do, ReadAll, Close, Request.SetBasicAuth,
        World.record, hn, ht, hr, hu]⟩)))

/-! ## The claims -/

set_option maxRecDepth 100000

/-- C1: the request body `CreateCustomIntegration` serializes. For all
arguments (empty strings and a nil or empty trigger slice included) the
operation hands exactly one value to `json.Marshal`; its type is "custom", its
displayName is the argument, its webhooks hold exactly one element, and that
element carries target, triggers, includeFullUser and includeFullSource as
given. Any request that is sent has the serialization of that value as body. -/
theorem CreateCustomIntegration_serializes_one_webhook (env : Env) (client : Client)
    (displayName target : String) (triggers : Slice String)
    (includeFullUser includeFullSource : Bool) :
    ∃ requestBody webhook,
      serialized (CreateCustomIntegration env client displayName target triggers
        includeFullUser includeFullSource World.init).2.log = [requestBody] ∧
      requestBody.Type_ = "custom" ∧
      requestBody.DisplayName = displayName ∧
      requestBody.Webhooks = some [webhook] ∧
      webhook.Target = target ∧
      webhook.Triggers = triggers ∧
      webhook.IncludeFullUser = includeFullUser ∧
      webhook.IncludeFullSource = includeFullSource ∧
      ∀ r ∈ sent (CreateCustomIntegration env client displayName target triggers
          includeFullUser includeFullSource World.init).2.log,
        env.marshalCreate requestBody = .ok r.Body := by
  refine ⟨⟨"custom", displayName, some [⟨target, triggers, includeFullUser, includeFullSource⟩]⟩,
    ⟨target, triggers, includeFullUser, includeFullSource⟩, ?_, rfl, rfl, rfl, rfl, rfl, rfl, rfl,
    ?_⟩
  · rcases CreateCustomIntegration_paths env client displayName target triggers
        includeFullUser includeFullSource World.init
      with ⟨e, h⟩ | ⟨b, e, -, -, h⟩ | ⟨b, resp, e, -, -, -, h⟩ | ⟨b, resp, -, -, -, h⟩ <;>
      (rw [h]; simp [World.init, serialized])
  · rcases CreateCustomIntegration_paths env client displayName target triggers
        includeFullUser includeFullSource World.init
      with ⟨e, h⟩ | ⟨b, e, hm, -, h⟩ | ⟨b, resp, e, hm, -, -, h⟩ | ⟨b, resp, hm, -, -, h⟩
    · rw [h]; simp [World.init, sent]
    all_goals (rw [h]; simp [World.init, sent, hm])

/-- C1 at empty strings and a nil trigger slice: the body that goes out. -/
theorem CreateCustomIntegration_serializes_one_webhook_witness :
    (∃ requestBody webhook,
      serialized (CreateCustomIntegration (exampleEnv (respond 200 createdBody))
        (NewClient (exampleEnv (respond 200 createdBody)) "https://api.example.com/" "A1"
          "key-id" "secret") "" "" none false false World.init).2.log = [requestBody] ∧
      requestBody.Type_ = "custom" ∧
      requestBody.DisplayName = "" ∧
      requestBody.Webhooks = some [webhook] ∧
      webhook.Target = "" ∧
      webhook.Triggers = none ∧
      webhook.IncludeFullUser = false ∧
      webhook.IncludeFullSource = false ∧
      ∀ r ∈ sent (CreateCustomIntegration (exampleEnv (respond 200 createdBody))
          (NewClient (exampleEnv (respond 200 createdBody)) "https://api.example.com/" "A1"
            "key-id" "secret") "" "" none false false World.init).2.log,
        (exampleEnv (respond 200 createdBody)).marshalCreate requestBody = .ok r.Body) ∧
    (sent (CreateCustomIntegration (exampleEnv (respond 200 createdBody))
        (NewClient (exampleEnv (respond 200 createdBody)) "https://api.example.com/" "A1"
          "key-id" "secret") "" "" none false false World.init).2.log).map Request.Body =
      ["\x7b\"type\":\"custom\",\"displayName\":\"\",\"webhooks\":[\x7b\"target\":\"\",\"triggers\":null,\"includeFullUser\":false,\"includeFullSource\":false\x7d]\x7d"] :=
  ⟨CreateCustomIntegration_serializes_one_webhook _ _ "" "" none false false, by decide⟩

/-- C2: method and URL of the request of each operation. Whatever request an
operation hands to the transport has: Create, POST and
baseUrl ++ "v2/apps/" ++ appId ++ "/integrations"; Update, PATCH and that URL
followed by "/" ++ integrationId; Delete, DELETE and the URL of Update;
GetAll, GET and the Create URL followed by "?filter[types]=custom"; Get, GET
and the URL of Update. -/
theorem request_method_and_url (env : Env) (client : Client)
    (integrationId displayName target : String) (triggers : Slice String)
    (includeFullUser includeFullSource : Bool) :
    (∀ r ∈ sent (CreateCustomIntegration env client displayName target triggers
          includeFullUser includeFullSource World.init).2.log,
      r.Method = "POST" ∧
      r.URL = client.baseUrl ++ "v2/apps/" ++ client.appId ++ "/integrations") ∧
    (∀ r ∈ sent (UpdateCustomIntegration env client integrationId displayName World.init).2.log,
      r.Method = "PATCH" ∧
      r.URL = client.baseUrl ++ "v2/apps/" ++ client.appId ++ "/integrations/" ++ integrationId) ∧
    (∀ r ∈ sent (DeleteCustomIntegration env client integrationId World.init).2.log,
      r.Method = "DELETE" ∧
      r.URL = client.baseUrl ++ "v2/apps/" ++ client.appId ++ "/integrations/" ++ integrationId) ∧
    (∀ r ∈ sent (GetAllCustomIntegrations env client World.init).2.log,
      r.Method = "GET" ∧
      r.URL = client.baseUrl ++ "v2/apps/" ++ client.appId ++
        "/integrations?filter[types]=custom") ∧
    (∀ r ∈ sent (GetCustomIntegration env client integrationId World.init).2.log,
      r.Method = "GET" ∧
      r.URL = client.baseUrl ++ "v2/apps/" ++ client.appId ++ "/integrations/" ++ integrationId) := by
  refine ⟨?_, ?_, ?_, ?_, ?_⟩
  · rcases CreateCustomIntegration_paths env client displayName target triggers
        includeFullUser includeFullSource World.init
      with ⟨e, h⟩ | ⟨b, e, -, -, h⟩ | ⟨b, resp, e, -, -, -, h⟩ | ⟨b, resp, -, -, -, h⟩ <;>
      (rw [h]; simp [World.init, sent])
  · rcases UpdateCustomIntegration_paths env client integrationId displayName World.init
      with ⟨e, h⟩ | ⟨b, e, -, -, h⟩ | ⟨b, resp, -, -, h⟩ <;>
      (rw [h]; simp [World.init, sent])
  · rcases DeleteCustomIntegration_paths env client integrationId World.init
      with ⟨e, h⟩ | ⟨e, -, h⟩ | ⟨resp, -, h⟩ <;>
      (rw [h]; simp [World.init, sent])
  · rcases GetAllCustomIntegrations_paths env client World.init
      with ⟨e, h⟩ | ⟨e, -, h⟩ | ⟨resp, e, -, -, h⟩ | ⟨resp, wr, e, -, -, -, h⟩ |
        ⟨resp, wr, -, -, -, h⟩ <;>
      (rw [h]; simp [World.init, sent])
  · rcases GetCustomIntegration_paths env client integrationId World.init
      with ⟨e, h⟩ | ⟨e, -, h⟩ | ⟨resp, e, -, -, h⟩ | ⟨resp, wr, e, -, -, -, h⟩ |
        ⟨resp, wr, -, -, -, h⟩ <;>
      (rw [h]; simp [World.init, sent])

/-- C2 at baseUrl "https://api.example.com/", appId "A1", integrationId "I1":
each operation sends exactly one request, and its URL is the base followed by
"v2/apps/A1/integrations", "v2/apps/A1/integrations/I1" or
"v2/apps/A1/integrations?filter[types]=custom". -/
theorem request_method_and_url_witness :
    ((sent (CreateCustomIntegration (exampleEnv (respond 200 createdBody))
        (exampleClient 200 createdBody) "My Bot" "https://hook.example.com"
        (some ["message:received"]) true false World.init).2.log).map
          (fun r => (r.Method, r.URL)) =
        [("POST", "https://api.example.com/v2/apps/A1/integrations")] ∧
      (sent (UpdateCustomIntegration (exampleEnv (respond 200 ""))
        (exampleClient 200 "") "I1" "My Bot" World.init).2.log).map
          (fun r => (r.Method, r.URL)) =
        [("PATCH", "https://api.example.com/v2/apps/A1/integrations/I1")] ∧
      (sent (DeleteCustomIntegration (exampleEnv (respond 200 ""))
        (exampleClient 200 "") "I1" World.init).2.log).map
          (fun r => (r.Method, r.URL)) =
        [("DELETE", "https://api.example.com/v2/apps/A1/integrations/I1")] ∧
      (sent (GetAllCustomIntegrations (exampleEnv (respond 200 ""))
        (exampleClient 200 "") World.init).2.log).map
          (fun r => (r.Method, r.URL)) =
        [("GET", "https://api.example.com/v2/apps/A1/integrations?filter[types]=custom")] ∧
      (sent (GetCustomIntegration (exampleEnv (respond 200 createdBody))
        (exampleClient 200 createdBody) "I1" World.init).2.log).map
          (fun r => (r.Method, r.URL)) =
        [("GET", "https://api.example.com/v2/apps/A1/integrations/I1")]) ∧
    (∀ r ∈ sent (CreateCustomIntegration (exampleEnv (respond 200 createdBody))
          (exampleClient 200 createdBody) "My Bot" "https://hook.example.com"
          (some ["message:received"]) true false World.init).2.log,
      r.Method = "POST" ∧ r.URL = "https://api.example.com/v2/apps/A1/integrations") :=
  ⟨by decide,
    (request_method_and_url (exampleEnv (respond 200 createdBody))
      (exampleClient 200 createdBody) "I1" "My Bot" "https://hook.example.com"
      (some ["message:received"]) true false).1⟩

/-- C3: credentials on every request. For a client made by
`NewClient baseUrl appId apiKeyId appSecret`, every request that any of the
five operations hands to the transport carries Basic credentials with
username apiKeyId and password appSecret. -/
theorem request_basic_auth (env : Env) (baseUrl appId apiKeyId appSecret : String)
    (integrationId displayName target : String) (triggers : Slice String)
    (includeFullUser includeFullSource : Bool) :
    (∀ r ∈ sent (CreateCustomIntegration env (NewClient env baseUrl appId apiKeyId appSecret)
          displayName target triggers includeFullUser includeFullSource World.init).2.log,
      r.BasicAuth = some (apiKeyId, appSecret)) ∧
    (∀ r ∈ sent (UpdateCustomIntegration env (NewClient env baseUrl appId apiKeyId appSecret)
          integrationId displayName World.init).2.log,
      r.BasicAuth = some (apiKeyId, appSecret)) ∧
    (∀ r ∈ sent (DeleteCustomIntegration env (NewClient env baseUrl appId apiKeyId appSecret)
          integrationId World.init).2.log,
      r.BasicAuth = some (apiKeyId, appSecret)) ∧
    (∀ r ∈ sent (GetAllCustomIntegrations env (NewClient env baseUrl appId apiKeyId appSecret)
          World.init).2.log,
      r.BasicAuth = some (apiKeyId, appSecret)) ∧
    (∀ r ∈ sent (GetCustomIntegration env (NewClient env baseUrl appId apiKeyId appSecret)
          integrationId World.init).2.log,
      r.BasicAuth = some (apiKeyId, appSecret)) := by
  refine ⟨?_, ?_, ?_, ?_, ?_⟩
  · rcases CreateCustomIntegration_paths env (NewClient env baseUrl appId apiKeyId appSecret)
        displayName target triggers includeFullUser includeFullSource World.init
      with ⟨e, h⟩ | ⟨b, e, -, -, h⟩ | ⟨b, resp, e, -, -, -, h⟩ | ⟨b, resp, -, -, -, h⟩ <;>
      (rw [h]; simp [World.init, sent, NewClient])
  · rcases UpdateCustomIntegration_paths env (NewClient env baseUrl appId apiKeyId appSecret)
        integrationId displayName World.init
      with ⟨e, h⟩ | ⟨b, e, -, -, h⟩ | ⟨b, resp, -, -, h⟩ <;>
      (rw [h]; simp [World.init, sent, NewClient])
  · rcases DeleteCustomIntegration_paths env (NewClient env baseUrl appId apiKeyId appSecret)
        integrationId World.init
      with ⟨e, h⟩ | ⟨e, -, h⟩ | ⟨resp, -, h⟩ <;>
      (rw [h]; simp [World.init, sent, NewClient])
  · rcases GetAllCustomIntegrations_paths env (NewClient env baseUrl appId apiKeyId appSecret)
        World.init
      with ⟨e, h⟩ | ⟨e, -, h⟩ | ⟨resp, e, -, -, h⟩ | ⟨resp, wr, e, -, -, -, h⟩ |
        ⟨resp, wr, -, -, -, h⟩ <;>
      (rw [h]; simp [World.init, sent, NewClient])
  · rcases GetCustomIntegration_paths env (NewClient env baseUrl appId apiKeyId appSecret)
        integrationId World.init
      with ⟨e, h⟩ | ⟨e, -, h⟩ | ⟨resp, e, -, -, h⟩ | ⟨resp, wr, e, -, -, -, h⟩ |
        ⟨resp, wr, -, -, -, h⟩ <;>
      (rw [h]; simp [World.init, sent, NewClient])

/-- C3 at apiKeyId "key-id" and appSecret "secret": each of the five
operations reaches the transport once, with these credentials. -/
theorem request_basic_auth_witness :
    ((sent (CreateCustomIntegration (exampleEnv (respond 200 createdBody))
        (NewClient (exampleEnv (respond 200 createdBody)) "https://api.example.com/" "A1"
          "key-id" "secret") "My Bot" "https://hook.example.com"
        (some ["message:received"]) true false World.init).2.log).map Request.BasicAuth =
        [some ("key-id", "secret")] ∧
      (sent (UpdateCustomIntegration (exampleEnv (respond 200 ""))
        (NewClient (exampleEnv (respond 200 "")) "https://api.example.com/" "A1"
          "key-id" "secret") "I1" "My Bot" World.init).2.log).map Request.BasicAuth =
        [some ("key-id", "secret")] ∧
      (sent (DeleteCustomIntegration (exampleEnv (respond 200 ""))
        (NewClient (exampleEnv (respond 200 "")) "https://api.example.com/" "A1"
          "key-id" "secret") "I1" World.init).2.log).map Request.BasicAuth =
        [some ("key-id", "secret")] ∧
      (sent (GetAllCustomIntegrations (exampleEnv (respond 200 ""))
        (NewClient (exampleEnv (respond 200 "")) "https://api.example.com/" "A1"
          "key-id" "secret") World.init).2.log).map Request.BasicAuth =
        [some ("key-id", "secret")] ∧
      (sent (GetCustomIntegration (exampleEnv (respond 200 createdBody))
        (NewClient (exampleEnv (respond 200 createdBody)) "https://api.example.com/" "A1"
          "key-id" "secret") "I1" World.init).2.log).map Request.BasicAuth =
        [some ("key-id", "secret")]) ∧
    (∀ r ∈ sent (CreateCustomIntegration (exampleEnv (respond 200 createdBody))
          (NewClient (exampleEnv (respond 200 createdBody)) "https://api.example.com/" "A1"
            "key-id" "secret") "My Bot" "https://hook.example.com"
          (some ["message:received"]) true false World.init).2.log,
      r.BasicAuth = some ("key-id", "secret")) :=
  ⟨by decide,
    (request_basic_auth (exampleEnv (respond 200 createdBody)) "https://api.example.com/" "A1"
      "key-id" "secret" "I1" "My Bot" "https://hook.example.com"
      (some ["message:received"]) true false).1⟩

/-- What the three decoding operations return when `json.Unmarshal` reports an
error: `GetCustomIntegration` and `GetAllCustomIntegrations` return nil and the
error; `CreateCustomIntegration` returns the error together with a pointer to
whatever the decoder left in the wrapper. -/
theorem decode_failure_results (env : Env) (client : Client)
    (integrationId displayName target : String) (triggers : Slice String)
    (includeFullUser includeFullSource : Bool) (w : World) :
    (∀ resp wr e,
      env.newRequestErr "GET"
        (client.baseUrl ++ "v2/apps/" ++ client.appId ++ "/integrations/" ++ integrationId)
        = none →
      client.client ⟨"GET",
        client.baseUrl ++ "v2/apps/" ++ client.appId ++ "/integrations/" ++ integrationId, "",
        some (client.apiKeyId, client.appSecret)⟩ = .ok resp →
      resp.Body.readErr = none →
      env.unmarshalWrapper resp.Body.data = (wr, some e) →
      (GetCustomIntegration env client integrationId w).1 = (none, some e)) ∧
    (∀ resp wr e,
      env.newRequestErr "GET"
        (client.baseUrl ++ "v2/apps/" ++ client.appId ++ "/integrations?filter[types]=custom")
        = none →
      client.client ⟨"GET",
        client.baseUrl ++ "v2/apps/" ++ client.appId ++ "/integrations?filter[types]=custom", "",
        some (client.apiKeyId, client.appSecret)⟩ = .ok resp →
      resp.Body.readErr = none →
      env.unmarshalWrappers resp.Body.data = (wr, some e) →
      (GetAllCustomIntegrations env client w).1 = (none, some e)) ∧
    (∀ b resp wr e,
      env.marshalCreate ⟨"custom", displayName,
        some [⟨target, triggers, includeFullUser, includeFullSource⟩]⟩ = .ok b →
      env.newRequestErr "POST"
        (client.baseUrl ++ "v2/apps/" ++ client.appId ++ "/integrations") = none →
      client.client ⟨"POST", client.baseUrl ++ "v2/apps/" ++ client.appId ++ "/integrations", b,
        some (client.apiKeyId, client.appSecret)⟩ = .ok resp →
      resp.Body.readErr = none →
      env.unmarshalWrapper resp.Body.data = (wr, some e) →
      (CreateCustomIntegration env client displayName target triggers
        includeFullUser includeFullSource w).1 = (some wr.Integration, some e)) := by
  refine ⟨?_, ?_, ?_⟩
  · intro resp wr e hn ht hr hu
    simp [GetCustomIntegration, NewRequest, Do, ReadAll, Request.SetBasicAuth, hn, ht, hr, hu]
  · intro resp wr e hn ht hr hu
    simp [GetAllCustomIntegrations, NewRequest, Do, ReadAll, Request.SetBasicAuth, hn, ht, hr, hu]
  · intro b resp wr e hm hn ht hr hu
    simp [CreateCustomIntegration, NewRequest, Do, ReadAll, Request.SetBasicAuth,
      hm, hn, ht, hr, hu]

/-- C4, where the code departs from it: a response body that does not decode.
Against the body {"integration":{"id":"abc","status":5}}, whose status is not
a string, `GetCustomIntegration` returns nil with a non-nil error, while
`CreateCustomIntegration` returns a non-nil error together with a non-nil
integration, populated up to the failing field (id "abc", the rest zero).
Against a body that is not JSON at all it returns a non-nil error together
with a zero-valued integration. -/
theorem CreateCustomIntegration_decode_failure_keeps_value :
    ((GetCustomIntegration (exampleEnv (respond 200 mistypedBody))
        (exampleClient 200 mistypedBody) "abc" World.init).1.1 = none ∧
      (GetCustomIntegration (exampleEnv (respond 200 mistypedBody))
        (exampleClient 200 mistypedBody) "abc" World.init).1.2 ≠ none) ∧
    ((CreateCustomIntegration (exampleEnv (respond 200 mistypedBody))
        (exampleClient 200 mistypedBody) "My Bot" "https://hook.example.com"
        (some ["message:received"]) true false World.init).1.1 =
          some { Id := "abc", Status := "", DisplayName := "", Webhooks := none } ∧
      (CreateCustomIntegration (exampleEnv (respond 200 mistypedBody))
        (exampleClient 200 mistypedBody) "My Bot" "https://hook.example.com"
        (some ["message:received"]) true false World.init).1.2 ≠ none) ∧
    ((CreateCustomIntegration (exampleEnv (respond 200 "not json"))
        (exampleClient 200 "not json") "My Bot" "https://hook.example.com"
        (some ["message:received"]) true false World.init).1.1 =
          some { Id := "", Status := "", DisplayName := "", Webhooks := none } ∧
      (CreateCustomIntegration (exampleEnv (respond 200 "not json"))
        (exampleClient 200 "not json") "My Bot" "https://hook.example.com"
        (some ["message:received"]) true false World.init).1.2 ≠ none) := by
  decide

/-- C5: `UpdateCustomIntegration` and `DeleteCustomIntegration` ignore the
response. If the request is built (for Update: the body serializes; for both:
`http.NewRequest` accepts method and URL) and the transport answers with a
response, whatever its status code and body, the operation returns a nil
error. -/
theorem update_delete_nil_error_on_response (env : Env) (client : Client)
    (integrationId displayName : String) (w : World) :
    (∀ b resp,
      env.marshalUpdate ⟨displayName⟩ = .ok b →
      env.newRequestErr "PATCH"
        (client.baseUrl ++ "v2/apps/" ++ client.appId ++ "/integrations/" ++ integrationId)
        = none →
      client.client ⟨"PATCH",
        client.baseUrl ++ "v2/apps/" ++ client.appId ++ "/integrations/" ++ integrationId, b,
        some (client.apiKeyId, client.appSecret)⟩ = .ok resp →
      (UpdateCustomIntegration env client integrationId displayName w).1 = none) ∧
    (∀ resp,
      env.newRequestErr "DELETE"
        (client.baseUrl ++ "v2/apps/" ++ client.appId ++ "/integrations/" ++ integrationId)
        = none →
      client.client ⟨"DELETE",
        client.baseUrl ++ "v2/apps/" ++ client.appId ++ "/integrations/" ++ integrationId, "",
        some (client.apiKeyId, client.appSecret)⟩ = .ok resp →
      (DeleteCustomIntegration env client integrationId w).1 = none) := by
  refine ⟨?_, ?_⟩
  · intro b resp hm hn ht
    simp [UpdateCustomIntegration, NewRequest, Do, Request.SetBasicAuth, hm, hn, ht]
  · intro resp hn ht
    simp [DeleteCustomIntegration, NewRequest, Do, Request.SetBasicAuth, hn, ht]

/-- C5 against a server that answers 500 with an empty body: both operations
return a nil error. -/
theorem update_delete_nil_error_on_response_witness :
    (UpdateCustomIntegration (exampleEnv (respond 500 "")) (exampleClient 500 "")
        "I1" "My Bot" World.init).1 = none ∧
    (DeleteCustomIntegration (exampleEnv (respond 500 "")) (exampleClient 500 "")
        "I1" World.init).1 = none :=
  ⟨(update_delete_nil_error_on_response (exampleEnv (respond 500 "")) (exampleClient 500 "")
      "I1" "My Bot" World.init).1 "\x7b\"displayName\":\"My Bot\"\x7d"
      { StatusCode := 500, Body := { data := "", readErr := none } }
      (by rfl) (by decide) (by rfl),
    (update_delete_nil_error_on_response (exampleEnv (respond 500 "")) (exampleClient 500 "")
      "I1" "My Bot" World.init).2
      { StatusCode := 500, Body := { data := "", readErr := none } } (by decide) (by rfl)⟩

/-- C6: unwrapping the envelope. When the exchange succeeds and the body
decodes without error into a wrapper, `GetCustomIntegration` returns exactly
the wrapper's Integration and `GetAllCustomIntegrations` returns exactly the
wrapper's Integrations slice: the same elements in the same order, nothing
sorted, dropped or merged. -/
theorem get_returns_decoded_envelope (env : Env) (client : Client) (integrationId : String)
    (w : World) :
    (∀ resp wr,
      env.newRequestErr "GET"
        (client.baseUrl ++ "v2/apps/" ++ client.appId ++ "/integrations/" ++ integrationId)
        = none →
      client.client ⟨"GET",
        client.baseUrl ++ "v2/apps/" ++ client.appId ++ "/integrations/" ++ integrationId, "",
        some (client.apiKeyId, client.appSecret)⟩ = .ok resp →
      resp.Body.readErr = none →
      env.unmarshalWrapper resp.Body.data = (wr, none) →
      (GetCustomIntegration env client integrationId w).1 = (some wr.Integration, none)) ∧
    (∀ resp wr,
      env.newRequestErr "GET"
        (client.baseUrl ++ "v2/apps/" ++ client.appId ++ "/integrations?filter[types]=custom")
        = none →
      client.client ⟨"GET",
        client.baseUrl ++ "v2/apps/" ++ client.appId ++ "/integrations?filter[types]=custom", "",
        some (client.apiKeyId, client.appSecret)⟩ = .ok resp →
      resp.Body.readErr = none →
      env.unmarshalWrappers resp.Body.data = (wr, none) →
      (GetAllCustomIntegrations env client w).1 = (some wr.Integrations, none)) := by
  refine ⟨?_, ?_⟩
  · intro resp wr hn ht hr hu
    simp [GetCustomIntegration, NewRequest, Do, ReadAll, Request.SetBasicAuth, hn, ht, hr, hu]
  · intro resp wr hn ht hr hu
    simp [GetAllCustomIntegrations, NewRequest, Do, ReadAll, Request.SetBasicAuth, hn, ht, hr, hu]

/-- C6 on two bodies: the create scenario's envelope read back by
`GetCustomIntegration`, and a list with ids "b", "a", "b" returned by
`GetAllCustomIntegrations` with its three elements in that order. -/
theorem get_returns_decoded_envelope_witness :
    (GetCustomIntegration (exampleEnv (respond 200 createdBody)) (exampleClient 200 createdBody)
        "abc" World.init).1 =
      (some { Id := "abc", Status := "active", DisplayName := "My Bot",
              Webhooks := some [{ Id := "w1", Version := "1",
                                  Target := "https://hook.example.com",
                                  Triggers := some ["message:received"],
                                  Secret := "s3cr3t" }] }, none) ∧
    (GetAllCustomIntegrations (exampleEnv (respond 200 listedBody)) (exampleClient 200 listedBody)
        World.init).1 =
      (some (some [{ Id := "b", Status := "", DisplayName := "", Webhooks := none },
                   { Id := "a", Status := "", DisplayName := "", Webhooks := none },
                   { Id := "b", Status := "", DisplayName := "", Webhooks := none }]), none) :=
  ⟨(get_returns_decoded_envelope (exampleEnv (respond 200 createdBody))
      (exampleClient 200 createdBody) "abc" World.init).1
      { StatusCode := 200, Body := { data := createdBody, readErr := none } }
      { Integration :=
          { Id := "abc", Status := "active", DisplayName := "My Bot",
            Webhooks := some [{ Id := "w1", Version := "1",
                                Target := "https://hook.example.com",
                                Triggers := some ["message:received"],
                                Secret := "s3cr3t" }] } }
      (by decide) (by rfl) (by rfl) (by decide),
    (get_returns_decoded_envelope (exampleEnv (respond 200 listedBody))
      (exampleClient 200 listedBody) "abc" World.init).2
      { StatusCode := 200, Body := { data := listedBody, readErr := none } }
      { Integrations :=
          some [{ Id := "b", Status := "", DisplayName := "", Webhooks := none },
                { Id := "a", Status := "", DisplayName := "", Webhooks := none },
                { Id := "b", Status := "", DisplayName := "", Webhooks := none }] }
      (by decide) (by rfl) (by rfl) (by decide)⟩

/-- C7: the result of a successful create. When the body serializes, the
request is built, the transport answers, the body is read and it decodes
without error into a wrapper, `CreateCustomIntegration` returns a nil error
and the wrapper's Integration, every field as decoded. -/
theorem CreateCustomIntegration_returns_decoded (env : Env) (client : Client)
    (displayName target : String) (triggers : Slice String)
    (includeFullUser includeFullSource : Bool) (w : World)
    (b : Bytes) (resp : Response) (wr : customIntegrationWrapper)
    (hm : env.marshalCreate ⟨"custom", displayName,
      some [⟨target, triggers, includeFullUser, includeFullSource⟩]⟩ = .ok b)
    (hn : env.newRequestErr "POST"
      (client.baseUrl ++ "v2/apps/" ++ client.appId ++ "/integrations") = none)
    (ht : client.client ⟨"POST", client.baseUrl ++ "v2/apps/" ++ client.appId ++ "/integrations",
      b, some (client.apiKeyId, client.appSecret)⟩ = .ok resp)
    (hr : resp.Body.readErr = none)
    (hu : env.unmarshalWrapper resp.Body.data = (wr, none)) :
    (CreateCustomIntegration env client displayName target triggers
      includeFullUser includeFullSource w).1 = (some wr.Integration, none) := by
  simp [CreateCustomIntegration, NewRequest, Do, ReadAll, Request.SetBasicAuth,
    hm, hn, ht, hr, hu]

/-- C7, the scenario: creating "My Bot" against a server that answers with the
envelope of integration "abc" yields id "abc", status "active" and exactly one
webhook, whose secret is "s3cr3t". -/
theorem CreateCustomIntegration_returns_decoded_witness :
    (CreateCustomIntegration (exampleEnv (respond 200 createdBody)) (exampleClient 200 createdBody)
        "My Bot" "https://hook.example.com" (some ["message:received"]) true false
        World.init).1 =
      (some { Id := "abc", Status := "active", DisplayName := "My Bot",
              Webhooks := some [{ Id := "w1", Version := "1",
                                  Target := "https://hook.example.com",
                                  Triggers := some ["message:received"],
                                  Secret := "s3cr3t" }] }, none) :=
  CreateCustomIntegration_returns_decoded (exampleEnv (respond 200 createdBody))
    (exampleClient 200 createdBody) "My Bot" "https://hook.example.com"
    (some ["message:received"]) true false World.init
    "\x7b\"type\":\"custom\",\"displayName\":\"My Bot\",\"webhooks\":[\x7b\"target\":\"https://hook.example.com\",\"triggers\":[\"message:received\"],\"includeFullUser\":true,\"includeFullSource\":false\x7d]\x7d"
    { StatusCode := 200, Body := { data := createdBody, readErr := none } }
    { Integration :=
        { Id := "abc", Status := "active", DisplayName := "My Bot",
          Webhooks := some [{ Id := "w1", Version := "1",
                              Target := "https://hook.example.com",
                              Triggers := some ["message:received"],
                              Secret := "s3cr3t" }] } }
    (by rfl) (by decide) (by rfl) (by rfl) (by decide)

/-- C8: transport and read failures are returned as they are. For each of the
five operations, if the send fails with e the operation returns e (and a nil
result where it has one), the request was handed to the transport exactly
once, and no body was read or decoded. If the send brings a response whose
body cannot be read, Create, GetAll and Get return the read error and a nil
result. No operation, on any path, sends more than one request. -/
theorem transport_failure_returned (env : Env) (client : Client)
    (integrationId displayName target : String) (triggers : Slice String)
    (includeFullUser includeFullSource : Bool) (e : Error) :
    (∀ b,
      env.marshalCreate ⟨"custom", displayName,
        some [⟨target, triggers, includeFullUser, includeFullSource⟩]⟩ = .ok b →
      env.newRequestErr "POST"
        (client.baseUrl ++ "v2/apps/" ++ client.appId ++ "/integrations") = none →
      client.client ⟨"POST", client.baseUrl ++ "v2/apps/" ++ client.appId ++ "/integrations", b,
        some (client.apiKeyId, client.appSecret)⟩ = .error e →
      (CreateCustomIntegration env client displayName target triggers
        includeFullUser includeFullSource World.init).1 = (none, some e) ∧
      sent (CreateCustomIntegration env client displayName target triggers
        includeFullUser includeFullSource World.init).2.log =
          [⟨"POST", client.baseUrl ++ "v2/apps/" ++ client.appId ++ "/integrations", b,
            some (client.apiKeyId, client.appSecret)⟩] ∧
      bodyReads (CreateCustomIntegration env client displayName target triggers
        includeFullUser includeFullSource World.init).2.log = 0 ∧
      decoded (CreateCustomIntegration env client displayName target triggers
        includeFullUser includeFullSource World.init).2.log = []) ∧
    (∀ b,
      env.marshalUpdate ⟨displayName⟩ = .ok b →
      env.newRequestErr "PATCH"
        (client.baseUrl ++ "v2/apps/" ++ client.appId ++ "/integrations/" ++ integrationId)
        = none →
      client.client ⟨"PATCH",
        client.baseUrl ++ "v2/apps/" ++ client.appId ++ "/integrations/" ++ integrationId, b,
        some (client.apiKeyId, client.appSecret)⟩ = .error e →
      (UpdateCustomIntegration env client integrationId displayName World.init).1 = some e ∧
      sent (UpdateCustomIntegration env client integrationId displayName World.init).2.log =
          [⟨"PATCH",
            client.baseUrl ++ "v2/apps/" ++ client.appId ++ "/integrations/" ++ integrationId, b,
            some (client.apiKeyId, client.appSecret)⟩] ∧
      bodyReads (UpdateCustomIntegration env client integrationId displayName World.init).2.log
        = 0 ∧
      decoded (UpdateCustomIntegration env client integrationId displayName World.init).2.log
        = []) ∧
    (env.newRequestErr "DELETE"
        (client.baseUrl ++ "v2/apps/" ++ client.appId ++ "/integrations/" ++ integrationId)
        = none →
      client.client ⟨"DELETE",
        client.baseUrl ++ "v2/apps/" ++ client.appId ++ "/integrations/" ++ integrationId, "",
        some (client.apiKeyId, client.appSecret)⟩ = .error e →
      (DeleteCustomIntegration env client integrationId World.init).1 = some e ∧
      sent (DeleteCustomIntegration env client integrationId World.init).2.log =
          [⟨"DELETE",
            client.baseUrl ++ "v2/apps/" ++ client.appId ++ "/integrations/" ++ integrationId, "",
            some (client.apiKeyId, client.appSecret)⟩] ∧
      bodyReads (DeleteCustomIntegration env client integrationId World.init).2.log = 0 ∧
      decoded (DeleteCustomIntegration env client integrationId World.init).2.log = []) ∧
    (env.newRequestErr "GET"
        (client.baseUrl ++ "v2/apps/" ++ client.appId ++ "/integrations?filter[types]=custom")
        = none →
      client.client ⟨"GET",
        client.baseUrl ++ "v2/apps/" ++ client.appId ++ "/integrations?filter[types]=custom", "",
        some (client.apiKeyId, client.appSecret)⟩ = .error e →
      (GetAllCustomIntegrations env client World.init).1 = (none, some e) ∧
      sent (GetAllCustomIntegrations env client World.init).2.log =
          [⟨"GET",
            client.baseUrl ++ "v2/apps/" ++ client.appId ++ "/integrations?filter[types]=custom",
            "", some (client.apiKeyId, client.appSecret)⟩] ∧
      bodyReads (GetAllCustomIntegrations env client World.init).2.log = 0 ∧
      decoded (GetAllCustomIntegrations env client World.init).2.log = []) ∧
    (env.newRequestErr "GET"
        (client.baseUrl ++ "v2/apps/" ++ client.appId ++ "/integrations/" ++ integrationId)
        = none →
      client.client ⟨"GET",
        client.baseUrl ++ "v2/apps/" ++ client.appId ++ "/integrations/" ++ integrationId, "",
        some (client.apiKeyId, client.appSecret)⟩ = .error e →
      (GetCustomIntegration env client integrationId World.init).1 = (none, some e) ∧
      sent (GetCustomIntegration env client integrationId World.init).2.log =
          [⟨"GET",
            client.baseUrl ++ "v2/apps/" ++ client.appId ++ "/integrations/" ++ integrationId, "",
            some (client.apiKeyId, client.appSecret)⟩] ∧
      bodyReads (GetCustomIntegration env client integrationId World.init).2.log = 0 ∧
      decoded (GetCustomIntegration env client integrationId World.init).2.log = []) ∧
    (∀ b resp,
      env.marshalCreate ⟨"custom", displayName,
        some [⟨target, triggers, includeFullUser, includeFullSource⟩]⟩ = .ok b →
      env.newRequestErr "POST"
        (client.baseUrl ++ "v2/apps/" ++ client.appId ++ "/integrations") = none →
      client.client ⟨"POST", client.baseUrl ++ "v2/apps/" ++ client.appId ++ "/integrations", b,
        some (client.apiKeyId, client.appSecret)⟩ = .ok resp →
      resp.Body.readErr = some e →
      (CreateCustomIntegration env client displayName target triggers
        includeFullUser includeFullSource World.init).1 = (none, some e)) ∧
    (∀ resp,
      env.newRequestErr "GET"
        (client.baseUrl ++ "v2/apps/" ++ client.appId ++ "/integrations?filter[types]=custom")
        = none →
      client.client ⟨"GET",
        client.baseUrl ++ "v2/apps/" ++ client.appId ++ "/integrations?filter[types]=custom", "",
        some (client.apiKeyId, client.appSecret)⟩ = .ok resp →
      resp.Body.readErr = some e →
      (GetAllCustomIntegrations env client World.init).1 = (none, some e)) ∧
    (∀ resp,
      env.newRequestErr "GET"
        (client.baseUrl ++ "v2/apps/" ++ client.appId ++ "/integrations/" ++ integrationId)
        = none →
      client.client ⟨"GET",
        client.baseUrl ++ "v2/apps/" ++ client.appId ++ "/integrations/" ++ integrationId, "",
        some (client.apiKeyId, client.appSecret)⟩ = .ok resp →
      resp.Body.readErr = some e →
      (GetCustomIntegration env client integrationId World.init).1 = (none, some e)) ∧
    (sent (CreateCustomIntegration env client displayName target triggers
        includeFullUser includeFullSource World.init).2.log).length ≤ 1 ∧
    (sent (UpdateCustomIntegration env client integrationId displayName
        World.init).2.log).length ≤ 1 ∧
    (sent (DeleteCustomIntegration env client integrationId World.init).2.log).length ≤ 1 ∧
    (sent (GetAllCustomIntegrations env client World.init).2.log).length ≤ 1 ∧
    (sent (GetCustomIntegration env client integrationId World.init).2.log).length ≤ 1 := by
  refine ⟨?_, ?_, ?_, ?_, ?_, ?_, ?_, ?_, ?_, ?_, ?_, ?_, ?_⟩
  · intro b hm hn ht
    simp [CreateCustomIntegration, NewRequest, Do, Request.SetBasicAuth, World.record,
      World.init, sent, bodyReads, decoded, hm, hn, ht]
  · intro b hm hn ht
    simp [UpdateCustomIntegration, NewRequest, Do, Request.SetBasicAuth, World.record,
      World.init, sent, bodyReads, decoded, hm, hn, ht]
  · intro hn ht
    simp [DeleteCustomIntegration, NewRequest, Do, Request.SetBasicAuth, World.record,
      World.init, sent, bodyReads, decoded, hn, ht]
  · intro hn ht
    simp [GetAllCustomIntegrations, NewRequest, Do, Request.SetBasicAuth, World.record,
      World.init, sent, bodyReads, decoded, hn, ht]
  · intro hn ht
    simp [GetCustomIntegration, NewRequest, Do, Request.SetBasicAuth, World.record,
      World.init, sent, bodyReads, decoded, hn, ht]
  · intro b resp hm hn ht hr
    simp [CreateCustomIntegration, NewRequest, Do, ReadAll, Request.SetBasicAuth, hm, hn, ht, hr]
  · intro resp hn ht hr
    simp [GetAllCustomIntegrations, NewRequest, Do, ReadAll, Request.SetBasicAuth, hn, ht, hr]
  · intro resp hn ht hr
    simp [GetCustomIntegration, NewRequest, Do, ReadAll, Request.SetBasicAuth, hn, ht, hr]
  · rcases CreateCustomIntegration_paths env client displayName target triggers
        includeFullUser includeFullSource World.init
      with ⟨e, h⟩ | ⟨b, e, -, -, h⟩ | ⟨b, resp, e, -, -, -, h⟩ | ⟨b, resp, -, -, -, h⟩ <;>
      (rw [h]; simp [World.init, sent])
  · rcases UpdateCustomIntegration_paths env client integrationId displayName World.init
      with ⟨e, h⟩ | ⟨b, e, -, -, h⟩ | ⟨b, resp, -, -, h⟩ <;>
      (rw [h]; simp [World.init, sent])
  · rcases DeleteCustomIntegration_paths env client integrationId World.init
      with ⟨e, h⟩ | ⟨e, -, h⟩ | ⟨resp, -, h⟩ <;>
      (rw [h]; simp [World.init, sent])
  · rcases GetAllCustomIntegrations_paths env client World.init
      with ⟨e, h⟩ | ⟨e, -, h⟩ | ⟨resp, e, -, -, h⟩ | ⟨resp, wr, e, -, -, -, h⟩ |
        ⟨resp, wr, -, -, -, h⟩ <;>
      (rw [h]; simp [World.init, sent])
  · rcases GetCustomIntegration_paths env client integrationId World.init
      with ⟨e, h⟩ | ⟨e, -, h⟩ | ⟨resp, e, -, -, h⟩ | ⟨resp, wr, e, -, -, -, h⟩ |
        ⟨resp, wr, -, -, -, h⟩ <;>
      (rw [h]; simp [World.init, sent])

/-- C8 against a transport that refuses every connection, and against one
whose response body breaks off: the create returns the transport error after
one send and no read; the get returns the read error and no value. -/
theorem transport_failure_returned_witness :
    ((CreateCustomIntegration (exampleEnv (refuse "dial tcp: connection refused"))
        (clientOver (refuse "dial tcp: connection refused"))
        "My Bot" "https://hook.example.com" none true false World.init).1 =
          (none, some "dial tcp: connection refused") ∧
      sent (CreateCustomIntegration (exampleEnv (refuse "dial tcp: connection refused"))
        (clientOver (refuse "dial tcp: connection refused"))
        "My Bot" "https://hook.example.com" none true false World.init).2.log =
          [⟨"POST", "https://api.example.com/v2/apps/A1/integrations",
            "\x7b\"type\":\"custom\",\"displayName\":\"My Bot\",\"webhooks\":[\x7b\"target\":\"https://hook.example.com\",\"triggers\":null,\"includeFullUser\":true,\"includeFullSource\":false\x7d]\x7d",
            some ("key-id", "secret")⟩] ∧
      bodyReads (CreateCustomIntegration (exampleEnv (refuse "dial tcp: connection refused"))
        (clientOver (refuse "dial tcp: connection refused"))
        "My Bot" "https://hook.example.com" none true false World.init).2.log = 0 ∧
      decoded (CreateCustomIntegration (exampleEnv (refuse "dial tcp: connection refused"))
        (clientOver (refuse "dial tcp: connection refused"))
        "My Bot" "https://hook.example.com" none true false World.init).2.log = []) ∧
    (GetCustomIntegration (exampleEnv (truncate 200 "unexpected EOF"))
        (clientOver (truncate 200 "unexpected EOF")) "I1" World.init).1 =
      (none, some "unexpected EOF") :=
  ⟨(transport_failure_returned (exampleEnv (refuse "dial tcp: connection refused"))
      (clientOver (refuse "dial tcp: connection refused")) "I1"
      "My Bot" "https://hook.example.com" none true false "dial tcp: connection refused").1
      "\x7b\"type\":\"custom\",\"displayName\":\"My Bot\",\"webhooks\":[\x7b\"target\":\"https://hook.example.com\",\"triggers\":null,\"includeFullUser\":true,\"includeFullSource\":false\x7d]\x7d"
      (by rfl) (by decide) (by rfl),
    (transport_failure_returned (exampleEnv (truncate 200 "unexpected EOF"))
      (clientOver (truncate 200 "unexpected EOF")) "I1"
      "My Bot" "https://hook.example.com" none true false "unexpected EOF").2.2.2.2.2.2.2.1
      { StatusCode := 200, Body := { data := "", readErr := some "unexpected EOF" } }
      (by decide) (by rfl) (by rfl)⟩

/-- Open response bodies across one call. `CreateCustomIntegration`,
`GetAllCustomIntegrations` and `GetCustomIntegration` leave as many bodies
open as they found, on every path. `UpdateCustomIntegration` and
`DeleteCustomIntegration` leave one more open whenever the transport answers
with a response. -/
theorem open_bodies_after (env : Env) (client : Client)
    (integrationId displayName target : String) (triggers : Slice String)
    (includeFullUser includeFullSource : Bool) (w : World) :
    (CreateCustomIntegration env client displayName target triggers
      includeFullUser includeFullSource w).2.openBodies = w.openBodies ∧
    (GetAllCustomIntegrations env client w).2.openBodies = w.openBodies ∧
    (GetCustomIntegration env client integrationId w).2.openBodies = w.openBodies ∧
    (∀ b resp,
      env.marshalUpdate ⟨displayName⟩ = .ok b →
      env.newRequestErr "PATCH"
        (client.baseUrl ++ "v2/apps/" ++ client.appId ++ "/integrations/" ++ integrationId)
        = none →
      client.client ⟨"PATCH",
        client.baseUrl ++ "v2/apps/" ++ client.appId ++ "/integrations/" ++ integrationId, b,
        some (client.apiKeyId, client.appSecret)⟩ = .ok resp →
      (UpdateCustomIntegration env client integrationId displayName w).2.openBodies
        = w.openBodies + 1) ∧
    (∀ resp,
      env.newRequestErr "DELETE"
        (client.baseUrl ++ "v2/apps/" ++ client.appId ++ "/integrations/" ++ integrationId)
        = none →
      client.client ⟨"DELETE",
        client.baseUrl ++ "v2/apps/" ++ client.appId ++ "/integrations/" ++ integrationId, "",
        some (client.apiKeyId, client.appSecret)⟩ = .ok resp →
      (DeleteCustomIntegration env client integrationId w).2.openBodies = w.openBodies + 1) := by
  refine ⟨?_, ?_, ?_, ?_, ?_⟩
  · rcases CreateCustomIntegration_paths env client displayName target triggers
        includeFullUser includeFullSource w
      with ⟨e, h⟩ | ⟨b, e, -, -, h⟩ | ⟨b, resp, e, -, -, -, h⟩ | ⟨b, resp, -, -, -, h⟩ <;>
      rw [h]
  · rcases GetAllCustomIntegrations_paths env client w
      with ⟨e, h⟩ | ⟨e, -, h⟩ | ⟨resp, e, -, -, h⟩ | ⟨resp, wr, e, -, -, -, h⟩ |
        ⟨resp, wr, -, -, -, h⟩ <;>
      rw [h]
  · rcases GetCustomIntegration_paths env client integrationId w
      with ⟨e, h⟩ | ⟨e, -, h⟩ | ⟨resp, e, -, -, h⟩ | ⟨resp, wr, e, -, -, -, h⟩ |
        ⟨resp, wr, -, -, -, h⟩ <;>
      rw [h]
  · intro b resp hm hn ht
    simp [UpdateCustomIntegration, NewRequest, Do, Request.SetBasicAuth, World.record, hm, hn, ht]
  · intro resp hn ht
    simp [DeleteCustomIntegration, NewRequest, Do, Request.SetBasicAuth, World.record, hn, ht]

/-- C9, where the code departs from it: the response body after an update or a
delete. Against a server that answers 200 with an empty body,
`UpdateCustomIntegration` and `DeleteCustomIntegration` return with the
response body still open and no close among their calls, while
`GetCustomIntegration` against the same kind of server returns with none
open. -/
theorem update_delete_leave_body_open :
    (UpdateCustomIntegration (exampleEnv (respond 200 "")) (exampleClient 200 "")
        "I1" "My Bot" World.init).2 =
      { openBodies := 1
        log := [.marshalUpdate ⟨"My Bot"⟩,
          .send ⟨"PATCH", "https://api.example.com/v2/apps/A1/integrations/I1",
            "\x7b\"displayName\":\"My Bot\"\x7d", some ("key-id", "secret")⟩] } ∧
    (DeleteCustomIntegration (exampleEnv (respond 200 "")) (exampleClient 200 "")
        "I1" World.init).2 =
      { openBodies := 1
        log := [.send ⟨"DELETE", "https://api.example.com/v2/apps/A1/integrations/I1", "",
          some ("key-id", "secret")⟩] } ∧
    (GetCustomIntegration (exampleEnv (respond 200 "")) (exampleClient 200 "")
        "I1" World.init).2 =
      { openBodies := 0
        log := [.send ⟨"GET", "https://api.example.com/v2/apps/A1/integrations/I1", "",
          some ("key-id", "secret")⟩, .readAll, .unmarshal "", .close] } := by
  decide

/-- C10: the status code has no part in the outcome. Take two servers whose
responses to every request carry the same body, with any status codes: then
`CreateCustomIntegration`, `GetAllCustomIntegrations` and
`GetCustomIntegration` return the same result and the same error against
both. `UpdateCustomIntegration` and `DeleteCustomIntegration` return the same
error against any two servers that answer, whatever status and body they
send. -/
theorem status_code_not_inspected (env : Env) (client : Client)
    (first second : Request → Response)
    (integrationId displayName target : String) (triggers : Slice String)
    (includeFullUser includeFullSource : Bool) (w : World) :
    ((∀ r, (first r).Body = (second r).Body) →
      (CreateCustomIntegration env { client with client := fun r => .ok (first r) }
          displayName target triggers includeFullUser includeFullSource w).1 =
        (CreateCustomIntegration env { client with client := fun r => .ok (second r) }
          displayName target triggers includeFullUser includeFullSource w).1 ∧
      (GetAllCustomIntegrations env { client with client := fun r => .ok (first r) } w).1 =
        (GetAllCustomIntegrations env { client with client := fun r => .ok (second r) } w).1 ∧
      (GetCustomIntegration env { client with client := fun r => .ok (first r) }
          integrationId w).1 =
        (GetCustomIntegration env { client with client := fun r => .ok (second r) }
          integrationId w).1) ∧
    (UpdateCustomIntegration env { client with client := fun r => .ok (first r) }
        integrationId displayName w).1 =
      (UpdateCustomIntegration env { client with client := fun r => .ok (second r) }
        integrationId displayName w).1 ∧
    (DeleteCustomIntegration env { client with client := fun r => .ok (first r) }
        integrationId w).1 =
      (DeleteCustomIntegration env { client with client := fun r => .ok (second r) }
        integrationId w).1 := by
  refine ⟨fun h => ⟨?_, ?_, ?_⟩, ?_, ?_⟩
  · rcases hm : env.marshalCreate ⟨"custom", displayName,
        some [⟨target, triggers, includeFullUser, includeFullSource⟩]⟩ with e | b
    · simp [CreateCustomIntegration, hm]
    rcases hn : env.newRequestErr "POST"
        (client.baseUrl ++ "v2/apps/" ++ client.appId ++ "/integrations") with _ | e
    · simp [CreateCustomIntegration, NewRequest, Do, ReadAll, Request.SetBasicAuth, hm, hn, h]
    · simp [CreateCustomIntegration, NewRequest, hm, hn]
  · rcases hn : env.newRequestErr "GET"
        (client.baseUrl ++ "v2/apps/" ++ client.appId ++ "/integrations?filter[types]=custom")
      with _ | e
    · simp [GetAllCustomIntegrations, NewRequest, Do, ReadAll, Request.SetBasicAuth, hn, h]
    · simp [GetAllCustomIntegrations, NewRequest, hn]
  · rcases hn : env.newRequestErr "GET"
        (client.baseUrl ++ "v2/apps/" ++ client.appId ++ "/integrations/" ++ integrationId)
      with _ | e
    · simp [GetCustomIntegration, NewRequest, Do, ReadAll, Request.SetBasicAuth, hn, h]
    · simp [GetCustomIntegration, NewRequest, hn]
  · rcases hm : env.marshalUpdate ⟨displayName⟩ with e | b
    · simp [UpdateCustomIntegration, hm]
    rcases hn : env.newRequestErr "PATCH"
        (client.baseUrl ++ "v2/apps/" ++ client.appId ++ "/integrations/" ++ integrationId)
      with _ | e
    · simp [UpdateCustomIntegration, NewRequest, Do, Request.SetBasicAuth, hm, hn]
    · simp [UpdateCustomIntegration, NewRequest, hm, hn]
  · rcases hn : env.newRequestErr "DELETE"
        (client.baseUrl ++ "v2/apps/" ++ client.appId ++ "/integrations/" ++ integrationId)
      with _ | e
    · simp [DeleteCustomIntegration, NewRequest, Do, Request.SetBasicAuth, hn]
    · simp [DeleteCustomIntegration, NewRequest, hn]

/-- C10 at status 200 against status 500, both with the body of the create
scenario: the three decoding operations return the same pair against either
server, and the create against the 500 server returns the decoded integration
with a nil error. -/
theorem status_code_not_inspected_witness :
    ((CreateCustomIntegration (exampleEnv (respond 200 createdBody))
          (exampleClient 200 createdBody) "My Bot" "https://hook.example.com"
          (some ["message:received"]) true false World.init).1 =
        (CreateCustomIntegration (exampleEnv (respond 200 createdBody))
          (exampleClient 500 createdBody) "My Bot" "https://hook.example.com"
          (some ["message:received"]) true false World.init).1 ∧
      (GetAllCustomIntegrations (exampleEnv (respond 200 createdBody))
          (exampleClient 200 createdBody) World.init).1 =
        (GetAllCustomIntegrations (exampleEnv (respond 200 createdBody))
          (exampleClient 500 createdBody) World.init).1 ∧
      (GetCustomIntegration (exampleEnv (respond 200 createdBody))
          (exampleClient 200 createdBody) "abc" World.init).1 =
        (GetCustomIntegration (exampleEnv (respond 200 createdBody))
          (exampleClient 500 createdBody) "abc" World.init).1) ∧
    (CreateCustomIntegration (exampleEnv (respond 200 createdBody))
        (exampleClient 500 createdBody) "My Bot" "https://hook.example.com"
        (some ["message:received"]) true false World.init).1 =
      (some { Id := "abc", Status := "active", DisplayName := "My Bot",
              Webhooks := some [{ Id := "w1", Version := "1",
                                  Target := "https://hook.example.com",
                                  Triggers := some ["message:received"],
                                  Secret := "s3cr3t" }] }, none) :=
  ⟨(status_code_not_inspected (exampleEnv (respond 200 createdBody))
      (exampleClient 200 createdBody)
      (fun _ => { StatusCode := 200, Body := { data := createdBody, readErr := none } })
      (fun _ => { StatusCode := 500, Body := { data := createdBody, readErr := none } })
      "abc" "My Bot" "https://hook.example.com" (some ["message:received"]) true false
      World.init).1 (fun _ => rfl),
    by decide⟩

end Sunshine
